import Mathlib

/- Verification development for the backend abstraction layer of rdf4j-mcp:
   the rdflib-based LocalBackend, the pyoxigraph/rdf4j-based RemoteBackend,
   their term/result normalization, and the derived exploration queries of
   the abstract Backend base class.  Python state is embedded as explicit
   state records, external engine calls as oracle fields, and fallible code
   as Except values. -/

namespace Rdf4jMcp

/-- Python truthiness of an optional string: None and the empty string are
falsy, every non-empty string is truthy. -/
def pyTruthy : Option String → Bool
  | none => false
  | some s => !s.isEmpty

/-- Terms of the in-process engine (rdflib): URIRef, Literal with optional
language tag and optional datatype IRI (rdflib stores the datatype as a
URIRef, a str subclass, so its truthiness is non-emptiness), BNode; the
last constructor stands for any non-term Python object reaching a
converter, rendered by str(). -/
inductive RTerm where
  | uriRef (value : String)
  | literal (value : String) (language : Option String) (datatype : Option String)
  | bnode (value : String)
  | objOther (srepr : String)
deriving DecidableEq, Repr

/-- Terms of the remote engine result set (pyoxigraph): NamedNode, Literal,
BlankNode.  In pyoxigraph every literal carries a datatype (xsd:string by
default, rdf:langString when language-tagged); the model keeps the field
optional so that the adapter code is embedded as written, and engine facts
are instantiated at concrete terms. -/
inductive OgTerm where
  | namedNode (value : String)
  | literal (value : String) (language : Option String) (datatype : Option String)
  | blankNode (value : String)
  | objOther (srepr : String)
deriving DecidableEq, Repr

/-- Portable term record produced by both adapters: a dict with a type tag,
a value, and the optional xml:lang and datatype entries. -/
structure TermDict where
  type : String
  value : String
  xmlLang : Option String := none
  datatype : Option String := none
deriving DecidableEq, Repr

/-- Embedding of LocalBackend._term_to_dict (backends/local.py).  The two
independent truthiness tests on language and datatype mirror the two
separate if statements of the source. -/
def LocalBackend.term_to_dict : RTerm → TermDict
  | .uriRef v => { type := ("uri"), value := v }
  | .literal v lang dt =>
      { type := ("literal"), value := v,
        xmlLang := if pyTruthy lang then lang else none,
        datatype := if pyTruthy dt then dt else none }
  | .bnode v => { type := ("bnode"), value := v }
  | .objOther r => { type := ("unknown"), value := r }

/-- Embedding of RemoteBackend._term_to_dict (backends/remote.py).  The
datatype is a pyoxigraph NamedNode object, truthy whenever present, so the
source test "if term.datatype:" is presence of the optional field. -/
def RemoteBackend.term_to_dict : OgTerm → TermDict
  | .namedNode v => { type := ("uri"), value := v }
  | .literal v lang dt =>
      { type := ("literal"), value := v,
        xmlLang := if pyTruthy lang then lang else none,
        datatype := if dt.isSome then dt else none }
  | .blankNode v => { type := ("bnode"), value := v }
  | .objOther r => { type := ("unknown"), value := r }

/-- One item yielded by iterating an rdflib query result: SELECT iteration
yields ResultRow objects, modelled as the association of bound variable
names to terms; CONSTRUCT iteration yields triples and ASK results carry a
boolean, both of which the SELECT row converter skips through its
isinstance check. -/
inductive RdflibItem where
  | row (cols : List (String × RTerm))
  | tripleItem (tsub tpred tobj : RTerm)
  | boolItem (b : Bool)
deriving DecidableEq, Repr

/-- Embedding of the inner loop of LocalBackend._bindings_to_dicts: for one
ResultRow, iterate the declared variable list (result.vars or an empty
list), fetch each variable from the row with a None default (getattr), and
keep only the bound ones, in variable-list order. -/
def LocalBackend.row_binding (vars : Option (List String))
    (cols : List (String × RTerm)) : List (String × TermDict) :=
  (vars.getD []).filterMap fun v =>
    (cols.lookup v).map fun t => (v, LocalBackend.term_to_dict t)

/-- Embedding of LocalBackend._bindings_to_dicts: each ResultRow becomes one
binding dict, non-row items are skipped. -/
def LocalBackend.bindings_to_dicts (vars : Option (List String))
    (items : List RdflibItem) : List (List (String × TermDict)) :=
  items.filterMap fun it =>
    match it with
    | .row cols => some (LocalBackend.row_binding vars cols)
    | _ => none

/-- Embedding of the inner loop of RemoteBackend._query_solutions_to_bindings:
one pyoxigraph QuerySolution is indexed positionally against the declared
variable-name list; unbound positions (None) are skipped. -/
def RemoteBackend.solution_binding (varNames : List String)
    (sol : List (Option OgTerm)) : List (String × TermDict) :=
  (varNames.zip sol).filterMap fun p =>
    p.2.map fun t => (p.1, RemoteBackend.term_to_dict t)

/-- Embedding of RemoteBackend._query_solutions_to_bindings: returns the
binding list together with the declared variable names. -/
def RemoteBackend.query_solutions_to_bindings (varNames : List String)
    (sols : List (List (Option OgTerm))) :
    List (List (String × TermDict)) × List String :=
  (sols.map fun sol => RemoteBackend.solution_binding varNames sol, varNames)

/-- Default string datatype IRI tested by RemoteBackend._format_term. -/
def xsdString : String := "http://www.w3.org/2001/XMLSchema#string"

/-- Python str.replace restricted to a single-character needle, on the
explicit character list of the string: every occurrence of the needle
character is replaced by the given segment, scanning left to right. -/
def replaceChar (needle : Char) (repl : List Char) : List Char → List Char
  | [] => []
  | c :: cs =>
      if c = needle then repl ++ replaceChar needle repl cs
      else c :: replaceChar needle repl cs

/-- Embedding of the escape line of RemoteBackend._format_term: first every
backslash is doubled, then every double quote gets a backslash. -/
def pyEscape (s : String) : String :=
  String.mk (replaceChar ('"') [('\\'), ('"')]
    (replaceChar ('\\') [('\\'), ('\\')] s.data))

/-- Embedding of RemoteBackend._format_term (backends/remote.py): Turtle
rendering of one pyoxigraph term with full IRIs, escaped quoted literals,
a language suffix, a datatype suffix unless xsd:string, and underscore
colon blank nodes. -/
def RemoteBackend.format_term : OgTerm → String
  | .namedNode v => "<" ++ v ++ ">"
  | .literal v lang dt =>
      let escaped := pyEscape v
      if pyTruthy lang then
        "\"" ++ escaped ++ "\"@" ++ lang.getD ""
      else if dt.isSome && !(dt.getD "" == xsdString) then
        "\"" ++ escaped ++ "\"^^<" ++ dt.getD "" ++ ">"
      else
        "\"" ++ escaped ++ "\""
  | .blankNode v => "_:" ++ v
  | .objOther r => r

/-- One typed triple of a pyoxigraph CONSTRUCT result. -/
structure OgTriple where
  subject : OgTerm
  predicate : OgTerm
  object : OgTerm
deriving DecidableEq, Repr

/-- Embedding of the serialization loop of RemoteBackend.sparql_construct:
one formatted line per triple, joined with newlines. -/
def RemoteBackend.serialize_construct (ts : List OgTriple) : String :=
  String.intercalate "\n" (ts.map fun t =>
    RemoteBackend.format_term t.subject ++ " " ++
    RemoteBackend.format_term t.predicate ++ " " ++
    RemoteBackend.format_term t.object ++ " .")

/-- Modelled from the spec: escape of a literal value described in section
4.2 as backslash and double-quote characters escaped, written here as a
single character-by-character pass. -/
def specEscape (s : String) : String :=
  String.mk (s.data.flatMap fun c =>
    if c = ('\\') then [('\\'), ('\\')]
    else if c = ('"') then [('\\'), ('"')] else [c])

/-- Modelled from the spec: Turtle rendering of one term as described in
section 4.2 of the spec, stated independently of the adapter code. -/
def specRenderTerm : OgTerm → String
  | .namedNode v => "<" ++ v ++ ">"
  | .literal v lang dt =>
      match lang with
      | some l => "\"" ++ specEscape v ++ "\"@" ++ l
      | none =>
          match dt with
          | some d =>
              if d = xsdString then "\"" ++ specEscape v ++ "\""
              else "\"" ++ specEscape v ++ "\"^^<" ++ d ++ ">"
          | none => "\"" ++ specEscape v ++ "\""
  | .blankNode v => "_:" ++ v
  | .objOther r => r

/-- Modelled from the spec: each triple rendered as subject predicate
object dot on its own line. -/
def specRenderTriples (ts : List OgTriple) : String :=
  String.intercalate "\n" (ts.map fun t =>
    specRenderTerm t.subject ++ " " ++ specRenderTerm t.predicate ++ " " ++
    specRenderTerm t.object ++ " .")

/-- Python exception values raised or propagated by the adapters. -/
inductive PyErr where
  | runtimeError (msg : String)
  | valueError (msg : String)
  | engineError (msg : String)
  | indexError (msg : String)
deriving DecidableEq, Repr

/-- Message of the RuntimeError raised by both _ensure_connected methods. -/
def notConnectedMsg : String := "Backend not connected. Call connect() first."

/-- Embedding of the QueryResult dataclass of backends/base.py. -/
structure QueryResult where
  type : String
  bindings : Option (List (List (String × TermDict))) := none
  triples : Option String := none
  boolean : Option Bool := none
  qvars : Option (List String) := none
  -- the source field is named variables, a reserved word here
deriving DecidableEq, Repr

/-- Embedding of the NamespaceInfo dataclass; the source fields are named
prefix and namespace. -/
structure NamespaceInfo where
  pfx : String
  ns : String
deriving DecidableEq, Repr

/-- Embedding of the StatisticsInfo dataclass. -/
structure StatisticsInfo where
  total_statements : Int
  total_classes : Int
  total_properties : Int
  total_subjects : Int
  total_objects : Int
deriving DecidableEq, Repr

/-- One stored triple of the in-process rdflib graph. -/
structure ETriple where
  es : RTerm
  ep : RTerm
  eo : RTerm
deriving DecidableEq, Repr

/-- State of an rdflib Graph owned by a LocalBackend: its triple set and
its namespace bindings. -/
structure RGraph where
  triples : List ETriple
  nsBindings : List (String × String)
deriving Repr

/-- Native result object returned by rdflib Graph.query: the declared
variable list (possibly None), the iterated items, and the askAnswer
attribute. -/
structure RdflibResult where
  vars : Option (List String)
  items : List RdflibItem
  askAnswer : Option Bool
deriving Repr

/-- Oracle bundle for the external rdflib library: SPARQL evaluation of a
query against a triple store, Turtle serialization, file parsing, and the
Python int() coercion of a term used by the statistics count loop. -/
structure RdflibEnv where
  query : List ETriple → String → Except String RdflibResult
  serializeTurtle : List ETriple → String
  parseFile : String → String → Except String (List ETriple)
  intOf : RTerm → Int

/-- State of a LocalBackend instance (backends/local.py __init__): the
configured path and format, the graph handle (None before connect and
after close), and the synthetic repository id, set to the string local. -/
structure LocalState where
  store_path : Option String
  store_format : String
  graph : Option RGraph
  repository_id : String

/-- Embedding of LocalBackend.__init__. -/
def LocalBackend.init (store_path : Option String) (store_format : String) :
    LocalState :=
  { store_path, store_format, graph := none, repository_id := ("local") }

/-- Namespaces bound by LocalBackend.connect before any file load. -/
def baseNamespaces : List (String × String) :=
  [(("rdf"), ("http://www.w3.org/1999/02/22-rdf-syntax-ns#")),
   (("rdfs"), ("http://www.w3.org/2000/01/rdf-schema#")),
   (("owl"), ("http://www.w3.org/2002/07/owl#")),
   (("xsd"), ("http://www.w3.org/2001/XMLSchema#"))]

/-- Embedding of LocalBackend.connect: a fresh graph with the four bound
namespaces is installed first; if a store path is configured it is parsed
into the graph, and a parse failure propagates while the fresh empty graph
stays installed. -/
def LocalBackend.connect (env : RdflibEnv) (st : LocalState) :
    LocalState × Except PyErr Unit :=
  match st.store_path with
  | none => ({ st with graph := some ⟨[], baseNamespaces⟩ }, .ok ())
  | some p =>
      match env.parseFile p st.store_format with
      | .ok ts => ({ st with graph := some ⟨ts, baseNamespaces⟩ }, .ok ())
      | .error m =>
          ({ st with graph := some ⟨[], baseNamespaces⟩ }, .error (.engineError m))

/-- Embedding of LocalBackend.close: drops the graph handle. -/
def LocalBackend.close (st : LocalState) : LocalState :=
  { st with graph := none }

/-- Embedding of LocalBackend._ensure_connected. -/
def LocalBackend.ensure_connected (st : LocalState) : Except PyErr RGraph :=
  match st.graph with
  | none => .error (.runtimeError notConnectedMsg)
  | some g => .ok g

/-- Embedding of LocalBackend.select_repository: the state is returned
unchanged alongside the outcome, since the method only reads it. -/
def LocalBackend.select_repository (st : LocalState) (repository_id : String) :
    LocalState × Except PyErr Unit :=
  (st,
   if repository_id ≠ st.repository_id then
     .error (.valueError (("Unknown repository: ") ++ repository_id))
   else .ok ())

/-- Embedding of LocalBackend.sparql_select; the repository_id parameter is
accepted and ignored exactly as in the source. -/
def LocalBackend.sparql_select (env : RdflibEnv) (st : LocalState)
    (query : String) (repository_id : Option String) : Except PyErr QueryResult := do
  let g ← LocalBackend.ensure_connected st
  match env.query g.triples query with
  | .error m => .error (.engineError m)
  | .ok r =>
      .ok { type := ("select"),
            bindings := some (LocalBackend.bindings_to_dicts r.vars r.items),
            qvars := some (r.vars.getD []) }

/-- Embedding of LocalBackend.sparql_construct: the iterated result triples
are added to a fresh graph (set semantics, hence the dedup) and serialized
through the rdflib Turtle serializer oracle. -/
def LocalBackend.sparql_construct (env : RdflibEnv) (st : LocalState)
    (query : String) (repository_id : Option String) : Except PyErr QueryResult := do
  let g ← LocalBackend.ensure_connected st
  match env.query g.triples query with
  | .error m => .error (.engineError m)
  | .ok r =>
      let ts := r.items.filterMap fun it =>
        match it with
        | .tripleItem a b c => some (⟨a, b, c⟩ : ETriple)
        | _ => none
      .ok { type := ("construct"), triples := some (env.serializeTurtle ts.dedup) }

/-- Embedding of LocalBackend.sparql_ask: bool(result.askAnswer) maps None
to False. -/
def LocalBackend.sparql_ask (env : RdflibEnv) (st : LocalState)
    (query : String) (repository_id : Option String) : Except PyErr QueryResult := do
  let g ← LocalBackend.ensure_connected st
  match env.query g.triples query with
  | .error m => .error (.engineError m)
  | .ok r => .ok { type := ("ask"), boolean := some (r.askAnswer.getD false) }

/-- Embedding of LocalBackend.get_namespaces. -/
def LocalBackend.get_namespaces (st : LocalState)
    (repository_id : Option String) : Except PyErr (List NamespaceInfo) := do
  let g ← LocalBackend.ensure_connected st
  .ok (g.nsBindings.map fun p => ⟨p.1, p.2⟩)

/-- Class-count SPARQL text issued by LocalBackend.get_statistics. -/
def localClassesQuery : String :=
  "\n        SELECT (COUNT(DISTINCT ?class) AS ?count) WHERE \x7b\n            \x7b ?class a owl:Class \x7d\n            UNION \x7b ?class a rdfs:Class \x7d\n            UNION \x7b ?s a ?class \x7d\n        \x7d\n        "

/-- Property-count SPARQL text issued by LocalBackend.get_statistics. -/
def localPropsQuery : String :=
  "\n        SELECT (COUNT(DISTINCT ?prop) AS ?count) WHERE \x7b\n            \x7b ?prop a rdf:Property \x7d\n            UNION \x7b ?prop a owl:ObjectProperty \x7d\n            UNION \x7b ?prop a owl:DatatypeProperty \x7d\n            UNION \x7b ?s ?prop ?o \x7d\n        \x7d\n        "

/-- Embedding of the count-extraction loop of LocalBackend.get_statistics:
the total starts at zero and each row carrying a bound count variable
overwrites it with the int() coercion of that term. -/
def LocalBackend.extract_count (env : RdflibEnv) (items : List RdflibItem) : Int :=
  items.foldl (fun acc it =>
    match it with
    | .row cols =>
        match cols.lookup ("count") with
        | some t => env.intOf t
        | none => acc
    | _ => acc) 0

/-- Embedding of LocalBackend.get_statistics: native triple count, two
engine-side count queries, and direct accumulation of the distinct subject
and object sets by iterating the graph. -/
def LocalBackend.get_statistics (env : RdflibEnv) (st : LocalState)
    (repository_id : Option String) : Except PyErr StatisticsInfo := do
  let g ← LocalBackend.ensure_connected st
  match env.query g.triples localClassesQuery with
  | .error m => .error (.engineError m)
  | .ok cr =>
      match env.query g.triples localPropsQuery with
      | .error m => .error (.engineError m)
      | .ok pr =>
          .ok { total_statements := (g.triples.length : Int),
                total_classes := LocalBackend.extract_count env cr.items,
                total_properties := LocalBackend.extract_count env pr.items,
                total_subjects := ((g.triples.map ETriple.es).dedup.length : Int),
                total_objects := ((g.triples.map ETriple.eo).dedup.length : Int) }

/-- Native result of a pyoxigraph repository query: QuerySolutions with its
declared variables and positionally indexed rows, QueryTriples, or the
plain boolean of an ASK. -/
inductive OgResult where
  | solutions (vars : List String) (rows : List (List (Option OgTerm)))
  | triplesRes (ts : List OgTriple)
  | boolRes (b : Bool)
deriving DecidableEq, Repr

/-- Opaque repository handle of the rdf4j_python client, identified by the
repository id it was resolved for. -/
abbrev RepoHandle := String

/-- Oracle bundle for the external rdf4j_python client and the remote
server: repository resolution, SPARQL evaluation against a repository
handle, and the repository size primitive. -/
structure RemoteEnv where
  get_repository : String → Except PyErr RepoHandle
  query : RepoHandle → String → Except PyErr OgResult
  size : RepoHandle → Except PyErr Int

/-- State of a RemoteBackend instance: server url, configured default
repository, current repository id, whether the client object is present,
and the cached repository handle. -/
structure RemoteState where
  server_url : String
  default_repository : Option String
  current_repository : Option String
  client : Bool
  repo : Option RepoHandle

/-- Embedding of RemoteBackend._ensure_connected. -/
def RemoteBackend.ensure_connected (st : RemoteState) : Except PyErr Unit :=
  if st.client then .ok () else .error (.runtimeError notConnectedMsg)

/-- Embedding of RemoteBackend._get_repository: the explicit argument wins
when truthy (Python or), a missing id is a ValueError, the cached handle is
reused when it matches the current repository id, and otherwise the client
resolves the id anew. -/
def RemoteBackend.get_repository_m (env : RemoteEnv) (st : RemoteState)
    (repository_id : Option String) : Except PyErr RepoHandle := do
  let _ ← RemoteBackend.ensure_connected st
  let rid? := if pyTruthy repository_id then repository_id else st.current_repository
  match rid? with
  | none => .error (.valueError ("No repository specified and no default repository set"))
  | some rid =>
      match st.repo with
      | some h =>
          if st.current_repository = some rid then .ok h
          else env.get_repository rid
      | none => env.get_repository rid

/-- Embedding of RemoteBackend.sparql_select: engine exceptions propagate;
a QuerySolutions result is normalized; any other successful result shape
falls back to an empty bindings list. -/
def RemoteBackend.sparql_select (env : RemoteEnv) (st : RemoteState)
    (query : String) (repository_id : Option String) : Except PyErr QueryResult := do
  let h ← RemoteBackend.get_repository_m env st repository_id
  let r ← env.query h query
  match r with
  | .solutions vars rows =>
      let pr := RemoteBackend.query_solutions_to_bindings vars rows
      .ok { type := ("select"), bindings := some pr.1, qvars := some pr.2 }
  | _ => .ok { type := ("select"), bindings := some [], qvars := some [] }

/-- Embedding of RemoteBackend.sparql_construct: a QueryTriples result is
serialized line by line; any other successful result shape falls back to
an empty triples string. -/
def RemoteBackend.sparql_construct (env : RemoteEnv) (st : RemoteState)
    (query : String) (repository_id : Option String) : Except PyErr QueryResult := do
  let h ← RemoteBackend.get_repository_m env st repository_id
  let r ← env.query h query
  match r with
  | .triplesRes ts =>
      .ok { type := ("construct"), triples := some (RemoteBackend.serialize_construct ts) }
  | _ => .ok { type := ("construct"), triples := some ("") }

/-- Embedding of RemoteBackend.sparql_ask: a boolean result is returned as
is; any other successful result shape falls back to False. -/
def RemoteBackend.sparql_ask (env : RemoteEnv) (st : RemoteState)
    (query : String) (repository_id : Option String) : Except PyErr QueryResult := do
  let h ← RemoteBackend.get_repository_m env st repository_id
  let r ← env.query h query
  match r with
  | .boolRes b => .ok { type := ("ask"), boolean := some b }
  | _ => .ok { type := ("ask"), boolean := some false }

/-- Value attribute of a pyoxigraph term, as read by int(solution[0].value). -/
def ogValue : OgTerm → String
  | .namedNode v => v
  | .literal v _ _ => v
  | .blankNode v => v
  | .objOther r => r

/-- Whitespace recognized by the int() strip step. -/
def isSpaceChar (c : Char) : Bool :=
  c = (' ') || c = ('\t') || c = ('\n') || c = ('\r')

/-- Python int() applied to a string: surrounding whitespace is stripped, an
optional sign is followed by at least one digit, anything else raises a
ValueError. -/
def pyIntParse (s : String) : Except PyErr Int :=
  let t := (((s.data.dropWhile isSpaceChar).reverse.dropWhile isSpaceChar).reverse)
  let sgn : Bool × List Char :=
    match t with
    | c :: rest =>
        if c = ('-') then (true, rest)
        else if c = ('+') then (false, rest) else (false, t)
    | [] => (false, t)
  if sgn.2 ≠ [] ∧ sgn.2.all Char.isDigit then
    let n : Int := sgn.2.foldl (fun acc c => acc * 10 + ((c.toNat - 48 : Nat) : Int)) 0
    .ok (if sgn.1 then -n else n)
  else
    .error (.valueError (("invalid literal for int() with base 10: ") ++ s))

/-- Embedding of the count-extraction loops of RemoteBackend.get_statistics:
zero unless the result is QuerySolutions, otherwise the last row with a
bound first column wins; indexing an empty row raises and a non-numeric
count value raises through int(). -/
def RemoteBackend.extract_count (r : OgResult) : Except PyErr Int :=
  match r with
  | .solutions _ rows =>
      rows.foldlM (fun acc row =>
        match row.head? with
        | none => .error (.indexError ("index out of range"))
        | some none => .ok acc
        | some (some t) => pyIntParse (ogValue t)) (0 : Int)
  | _ => .ok 0

/-- Class-count SPARQL text issued by RemoteBackend.get_statistics. -/
def remoteClassesQuery : String :=
  "\n        SELECT (COUNT(DISTINCT ?class) AS ?count) WHERE \x7b\n            \x7b ?class a <http://www.w3.org/2002/07/owl#Class> \x7d\n            UNION \x7b ?class a <http://www.w3.org/2000/01/rdf-schema#Class> \x7d\n            UNION \x7b ?s a ?class \x7d\n        \x7d\n        "

/-- Property-count SPARQL text issued by RemoteBackend.get_statistics. -/
def remotePropsQuery : String :=
  "\n        SELECT (COUNT(DISTINCT ?prop) AS ?count) WHERE \x7b\n            \x7b ?prop a <http://www.w3.org/1999/02/22-rdf-syntax-ns#Property> \x7d\n            UNION \x7b ?prop a <http://www.w3.org/2002/07/owl#ObjectProperty> \x7d\n            UNION \x7b ?prop a <http://www.w3.org/2002/07/owl#DatatypeProperty> \x7d\n            UNION \x7b ?s ?prop ?o \x7d\n        \x7d\n        "

/-- Subject-count SPARQL text issued by RemoteBackend.get_statistics. -/
def remoteSubjectsQuery : String :=
  "SELECT (COUNT(DISTINCT ?s) AS ?count) WHERE \x7b ?s ?p ?o \x7d"

/-- Object-count SPARQL text issued by RemoteBackend.get_statistics. -/
def remoteObjectsQuery : String :=
  "SELECT (COUNT(DISTINCT ?o) AS ?count) WHERE \x7b ?s ?p ?o \x7d"

/-- Embedding of RemoteBackend.get_statistics: the statement total comes
from the repository size primitive, the other four figures from one
aggregate COUNT DISTINCT query each. -/
def RemoteBackend.get_statistics (env : RemoteEnv) (st : RemoteState)
    (repository_id : Option String) : Except PyErr StatisticsInfo := do
  let h ← RemoteBackend.get_repository_m env st repository_id
  let total_statements ← env.size h
  let cr ← env.query h remoteClassesQuery
  let total_classes ← RemoteBackend.extract_count cr
  let pr ← env.query h remotePropsQuery
  let total_properties ← RemoteBackend.extract_count pr
  let sr ← env.query h remoteSubjectsQuery
  let total_subjects ← RemoteBackend.extract_count sr
  let obr ← env.query h remoteObjectsQuery
  let total_objects ← RemoteBackend.extract_count obr
  .ok { total_statements, total_classes, total_properties,
        total_subjects, total_objects }

/-- Substring containment, used to state facts about constructed SPARQL
query text. -/
def containsSub (s sub : String) : Prop :=
  ∃ a b, s = a ++ sub ++ b

/-- Filter clause built by Backend.search_classes when a pattern is given. -/
def search_classes_filter (pattern : Option String) : String :=
  if pyTruthy pattern then
    "FILTER(REGEX(STR(?class), \"" ++ pattern.getD "" ++ "\", \"i\"))"
  else ""

/-- SPARQL text issued by Backend.search_classes (backends/base.py). -/
def search_classes_query (pattern : Option String) (limit : Nat) : String :=
  "\n        SELECT DISTINCT ?class ?label ?comment\n        WHERE \x7b\n            \x7b ?class a owl:Class \x7d\n            UNION\n            \x7b ?class a rdfs:Class \x7d\n            UNION\n            \x7b ?s a ?class \x7d\n            OPTIONAL \x7b ?class rdfs:label ?label \x7d\n            OPTIONAL \x7b ?class rdfs:comment ?comment \x7d\n            "
  ++ search_classes_filter pattern ++
  "\n        \x7d\n        ORDER BY ?class\n        LIMIT " ++ toString limit ++ "\n        "

/-- SPARQL text issued by Backend.find_instances (backends/base.py). -/
def find_instances_query (class_iri : String) (limit : Nat) : String :=
  "\n        SELECT DISTINCT ?instance ?label\n        WHERE \x7b\n            ?instance a <"
  ++ class_iri ++
  "> .\n            OPTIONAL \x7b ?instance rdfs:label ?label \x7d\n        \x7d\n        ORDER BY ?instance\n        LIMIT " ++ toString limit ++ "\n        "

/-- Expanded IRI of the keyword a, rdf:type. -/
def rdfTypeT : RTerm := .uriRef ("http://www.w3.org/1999/02/22-rdf-syntax-ns#type")

/-- Expanded owl:Class, resolved from the namespaces LocalBackend binds. -/
def owlClassT : RTerm := .uriRef ("http://www.w3.org/2002/07/owl#Class")

/-- Expanded rdfs:Class. -/
def rdfsClassT : RTerm := .uriRef ("http://www.w3.org/2000/01/rdf-schema#Class")

/-- Expanded rdfs:label. -/
def rdfsLabelT : RTerm := .uriRef ("http://www.w3.org/2000/01/rdf-schema#label")

/-- Expanded rdfs:comment. -/
def rdfsCommentT : RTerm := .uriRef ("http://www.w3.org/2000/01/rdf-schema#comment")

/-- Candidate class list of the three-way UNION in the search_classes query:
subjects declared owl:Class, subjects declared rdfs:Class, and every object
of an rdf:type triple, in graph order. -/
def classCandidates (g : List ETriple) : List RTerm :=
  (g.filterMap fun t =>
      if t.ep = rdfTypeT ∧ t.eo = owlClassT then some t.es else none) ++
  (g.filterMap fun t =>
      if t.ep = rdfTypeT ∧ t.eo = rdfsClassT then some t.es else none) ++
  (g.filterMap fun t => if t.ep = rdfTypeT then some t.eo else none)

/-- Objects o of the triples with the given subject and predicate. -/
def valuesOf (g : List ETriple) (subj pred : RTerm) : List RTerm :=
  g.filterMap fun t => if t.es = subj ∧ t.ep = pred then some t.eo else none

/-- SPARQL OPTIONAL semantics on a match list: no match contributes the
unbound row, otherwise one row per match. -/
def optVals (l : List RTerm) : List (Option RTerm) :=
  match l with
  | [] => [none]
  | _ => l.map some

/-- One solution row of the search_classes query. -/
structure ClassRow where
  cls : RTerm
  lbl : Option RTerm
  cmt : Option RTerm
deriving DecidableEq, Repr

/-- Raw (pre DISTINCT, ORDER, LIMIT) solution rows of the search_classes
query: each candidate class joined with its optional labels and comments. -/
def searchClassesRaw (g : List ETriple) : List ClassRow :=
  (classCandidates g).flatMap fun c =>
    (optVals (valuesOf g c rdfsLabelT)).flatMap fun lb =>
      (optVals (valuesOf g c rdfsCommentT)).map fun cm =>
        { cls := c, lbl := lb, cmt := cm }

/-- SPARQL STR on a term: the IRI of an IRI, the lexical form of a literal,
and a type error (treated as a failed filter) on a blank node. -/
def strOf : RTerm → Option String
  | .uriRef v => some v
  | .literal v _ _ => some v
  | _ => none

/-- Ordering rank of a term kind under SPARQL ORDER BY: blank nodes before
IRIs before literals. -/
def termRank : RTerm → Nat
  | .bnode _ => 0
  | .uriRef _ => 1
  | .literal _ _ _ => 2
  | .objOther _ => 3

/-- String payload of a term, used as the secondary ordering key. -/
def termVal : RTerm → String
  | .uriRef v => v
  | .literal v _ _ => v
  | .bnode v => v
  | .objOther r => r

/-- Total comparison of terms: lexicographically by kind rank, then by
string value. -/
def termLe (a b : RTerm) : Bool :=
  decide (toLex (termRank a, (termVal a).data) ≤ toLex (termRank b, (termVal b).data))

/-- Row order of the search_classes query: ORDER BY the class key. -/
def classRowLe (a b : ClassRow) : Prop := termLe a.cls b.cls = true

instance : DecidableRel classRowLe := fun a b =>
  inferInstanceAs (Decidable (termLe a.cls b.cls = true))

instance : IsTrans ClassRow classRowLe :=
  ⟨fun a b c hab hbc => by
    simp only [classRowLe, termLe, decide_eq_true_eq] at *
    exact le_trans hab hbc⟩

instance : IsTotal ClassRow classRowLe :=
  ⟨fun a b => by
    simp only [classRowLe, termLe, decide_eq_true_eq]
    exact le_total _ _⟩

/-- Raw rows after the optional FILTER step of the search_classes query:
the REGEX primitive of the engine is an oracle rx, applied to STR of the
class key, and a STR type error makes the filter drop the row. -/
def searchClassesFiltered (rx : String → String → Bool) (g : List ETriple)
    (pattern : Option String) : List ClassRow :=
  if pyTruthy pattern then
    (searchClassesRaw g).filter fun r =>
      match strOf r.cls with
      | some s => rx (pattern.getD "") s
      | none => false
  else searchClassesRaw g

/-- Evaluation of the search_classes query under standard SPARQL semantics:
pattern match and filter, ORDER BY the class key, DISTINCT on whole rows,
and LIMIT.  The engine evaluating the issued query text is modelled by
this function. -/
def searchClassesEval (rx : String → String → Bool) (g : List ETriple)
    (pattern : Option String) (limit : Nat) : List ClassRow :=
  (((List.insertionSort classRowLe
      (searchClassesFiltered rx g pattern)).dedup).take limit)

/-- One solution row of the find_instances query. -/
structure InstRow where
  inst : RTerm
  lbl : Option RTerm
deriving DecidableEq, Repr

/-- Subjects typed as the given class IRI, in graph order. -/
def instanceCandidates (g : List ETriple) (class_iri : String) : List RTerm :=
  g.filterMap fun t =>
    if t.ep = rdfTypeT ∧ t.eo = .uriRef class_iri then some t.es else none

/-- Raw solution rows of the find_instances query. -/
def findInstancesRaw (g : List ETriple) (class_iri : String) : List InstRow :=
  (instanceCandidates g class_iri).flatMap fun s =>
    (optVals (valuesOf g s rdfsLabelT)).map fun lb => { inst := s, lbl := lb }

/-- Row order of the find_instances query: ORDER BY the instance key. -/
def instRowLe (a b : InstRow) : Prop := termLe a.inst b.inst = true

instance : DecidableRel instRowLe := fun a b =>
  inferInstanceAs (Decidable (termLe a.inst b.inst = true))

instance : IsTrans InstRow instRowLe :=
  ⟨fun a b c hab hbc => by
    simp only [instRowLe, termLe, decide_eq_true_eq] at *
    exact le_trans hab hbc⟩

instance : IsTotal InstRow instRowLe :=
  ⟨fun a b => by
    simp only [instRowLe, termLe, decide_eq_true_eq]
    exact le_total _ _⟩

/-- Evaluation of the find_instances query under standard SPARQL semantics:
ORDER BY the instance key, DISTINCT on whole rows, LIMIT. -/
def findInstancesEval (g : List ETriple) (class_iri : String)
    (limit : Nat) : List InstRow :=
  (((List.insertionSort instRowLe (findInstancesRaw g class_iri)).dedup).take limit)

/-- Datatype IRI pyoxigraph assigns to every language-tagged literal. -/
def rdfLangString : String := "http://www.w3.org/1999/02/22-rdf-syntax-ns#langString"

/-- A pyoxigraph language-tagged literal: its datatype is rdf:langString. -/
def ogLangLit : OgTerm := .literal ("chat") (some ("fr")) (some rdfLangString)

/-- Statement of claim C2 about the literal case of the two term
converters, with the amendment: each converter tags by the engine tagging
and copies language and datatype independently of each other; the
if-present-else-datatype chain and the at-most-one guarantee hold exactly
when the native literal carries at most one truthy annotation, which
rdflib guarantees and pyoxigraph does not. -/
def C2Concl (v : String) (lang dt : Option String) : Prop :=
  ((LocalBackend.term_to_dict (.uriRef v)).type = ("uri")) ∧
  ((LocalBackend.term_to_dict (.literal v lang dt)).type = ("literal")) ∧
  ((LocalBackend.term_to_dict (.bnode v)).type = ("bnode")) ∧
  ((RemoteBackend.term_to_dict (.namedNode v)).type = ("uri")) ∧
  ((RemoteBackend.term_to_dict (.literal v lang dt)).type = ("literal")) ∧
  ((RemoteBackend.term_to_dict (.blankNode v)).type = ("bnode")) ∧
  (¬ (pyTruthy lang = true ∧ pyTruthy dt = true) →
    ((LocalBackend.term_to_dict (.literal v lang dt)).xmlLang = none ∨
     (LocalBackend.term_to_dict (.literal v lang dt)).datatype = none)) ∧
  (pyTruthy lang = true →
    (LocalBackend.term_to_dict (.literal v lang dt)).xmlLang = lang ∧
    (RemoteBackend.term_to_dict (.literal v lang dt)).xmlLang = lang) ∧
  (pyTruthy lang = false →
    (LocalBackend.term_to_dict (.literal v lang dt)).xmlLang = none ∧
    (RemoteBackend.term_to_dict (.literal v lang dt)).xmlLang = none) ∧
  (pyTruthy dt = true →
    (LocalBackend.term_to_dict (.literal v lang dt)).datatype = dt) ∧
  (pyTruthy dt = false →
    (LocalBackend.term_to_dict (.literal v lang dt)).datatype = none) ∧
  ((RemoteBackend.term_to_dict (.literal v lang dt)).datatype = dt) ∧
  ((LocalBackend.term_to_dict (.literal v lang dt)).datatype = none ∨
   (LocalBackend.term_to_dict (.literal v lang dt)).datatype = dt) ∧
  ((RemoteBackend.term_to_dict (.literal v lang dt)).datatype = none ∨
   (RemoteBackend.term_to_dict (.literal v lang dt)).datatype = dt)

/-- Statement of claim C3 about both row normalizers: the keys of each
produced binding follow the declared projected-variable list restricted to
the variables actually bound in the row, an unbound projected variable is
absent from the binding, and every present value is the conversion of an
actual engine term, never a null marker. -/
def C3Concl (vars : List String) (cols : List (String × RTerm))
    (varNames : List String) (sol : List (Option OgTerm)) : Prop :=
  ((LocalBackend.row_binding (some vars) cols).map Prod.fst
      = vars.filter fun v => (cols.lookup v).isSome) ∧
  (∀ v, cols.lookup v = none →
      ∀ d, (v, d) ∉ LocalBackend.row_binding (some vars) cols) ∧
  (∀ v d, (v, d) ∈ LocalBackend.row_binding (some vars) cols →
      ∃ t, cols.lookup v = some t ∧ d = LocalBackend.term_to_dict t) ∧
  (LocalBackend.bindings_to_dicts (some vars) ((RdflibItem.row cols) :: [])
      = (LocalBackend.row_binding (some vars) cols) :: []) ∧
  ((RemoteBackend.solution_binding varNames sol).map Prod.fst
      = (varNames.zip sol).filterMap fun p =>
          if p.2.isSome then some p.1 else none) ∧
  (∀ v d, (v, d) ∈ RemoteBackend.solution_binding varNames sol →
      ∃ t, (v, some t) ∈ varNames.zip sol ∧ d = RemoteBackend.term_to_dict t) ∧
  (varNames.Nodup → ∀ v, (v, (none : Option OgTerm)) ∈ varNames.zip sol →
      ∀ d, (v, d) ∉ RemoteBackend.solution_binding varNames sol)

/-- Trivial REGEX oracle accepting everything, used for concrete runs with
no pattern. -/
def rxTrue : String → String → Bool := fun _ _ => true

/-- Store holding one explicit owl:Class declaration whose class carries
two rdfs:label values, the input refuting the no-duplicate-IRIs claim. -/
def c5Graph : List ETriple :=
  [⟨.uriRef ("http://ex.org/C"), rdfTypeT, owlClassT⟩,
   ⟨.uriRef ("http://ex.org/C"), rdfsLabelT, .literal ("a") none none⟩,
   ⟨.uriRef ("http://ex.org/C"), rdfsLabelT, .literal ("b") none none⟩]

/-- Store with explicit owl:Class declaration, implicit type usage of the
same class, and single annotations, on which deduplication does hold. -/
def c5GoodGraph : List ETriple :=
  [⟨.uriRef ("http://ex.org/C"), rdfTypeT, owlClassT⟩,
   ⟨.uriRef ("http://ex.org/a"), rdfTypeT, .uriRef ("http://ex.org/C")⟩,
   ⟨.uriRef ("http://ex.org/C"), rdfsLabelT, .literal ("a") none none⟩]

/-- Statement of claim C5 with the amendment: the search_classes result
carries no duplicate rows, is sorted by the class key, is capped at limit,
draws every class from the three-way union of discovery patterns, and has
no duplicate class IRIs provided every candidate carries at most one label
and at most one comment; the issued query text contains the UNION, the two
OPTIONAL annotations, the ORDER BY, the LIMIT, and the case-insensitive
REGEX filter exactly when a pattern is given. -/
def C5Concl (rx : String → String → Bool) (g : List ETriple)
    (pattern : Option String) (limit : Nat) : Prop :=
  (searchClassesEval rx g pattern limit).Nodup ∧
  List.Pairwise classRowLe (searchClassesEval rx g pattern limit) ∧
  (searchClassesEval rx g pattern limit).length ≤ limit ∧
  (∀ r ∈ searchClassesEval rx g pattern limit, r.cls ∈ classCandidates g) ∧
  ((∀ c, (valuesOf g c rdfsLabelT).length ≤ 1 ∧
         (valuesOf g c rdfsCommentT).length ≤ 1) →
     ((searchClassesEval rx g pattern limit).map ClassRow.cls).Nodup) ∧
  containsSub (search_classes_query pattern limit) ("UNION") ∧
  containsSub (search_classes_query pattern limit)
      ("OPTIONAL \x7b ?class rdfs:label ?label \x7d") ∧
  containsSub (search_classes_query pattern limit)
      ("OPTIONAL \x7b ?class rdfs:comment ?comment \x7d") ∧
  containsSub (search_classes_query pattern limit) ("ORDER BY ?class") ∧
  containsSub (search_classes_query pattern limit)
      (("LIMIT ") ++ toString limit) ∧
  (pyTruthy pattern = true →
     containsSub (search_classes_query pattern limit)
       ("FILTER(REGEX(STR(?class), \"" ++ pattern.getD "" ++ "\", \"i\"))")) ∧
  (pyTruthy pattern = false → search_classes_filter pattern = "")

/-- Class IRI used by the concrete find_instances stores. -/
def c6ClassIRI : String := "http://ex.org/C"

/-- Store with one typed subject carrying two rdfs:label values, the input
refuting the no-repeated-subject half of the findInstances claim. -/
def c6Graph : List ETriple :=
  [⟨.uriRef ("http://ex.org/a"), rdfTypeT, .uriRef c6ClassIRI⟩,
   ⟨.uriRef ("http://ex.org/a"), rdfsLabelT, .literal ("x") none none⟩,
   ⟨.uriRef ("http://ex.org/a"), rdfsLabelT, .literal ("y") none none⟩]

/-- Store with two typed subjects and at most one label each, on which the
findInstances result is exactly the typed-subject set. -/
def c6GoodGraph : List ETriple :=
  [⟨.uriRef ("http://ex.org/b"), rdfTypeT, .uriRef c6ClassIRI⟩,
   ⟨.uriRef ("http://ex.org/a"), rdfTypeT, .uriRef c6ClassIRI⟩,
   ⟨.uriRef ("http://ex.org/a"), rdfsLabelT, .literal ("x") none none⟩]

/-- Statement of claim C6 with the amendment: the find_instances result is
ordered by the instance key, duplicate-free as whole rows, capped at
limit; every returned instance is a typed subject; when the result is not
truncated by the limit the returned instances are exactly the subjects
typed as the class; and the instance column has no repeats whenever every
subject carries at most one rdfs:label; the issued query text matches the
typed-subject pattern, orders by the instance variable, and carries the
LIMIT clause. -/
def C6Concl (g : List ETriple) (c : String) (limit : Nat) : Prop :=
  List.Pairwise instRowLe (findInstancesEval g c limit) ∧
  (findInstancesEval g c limit).Nodup ∧
  (findInstancesEval g c limit).length ≤ limit ∧
  (∀ r ∈ findInstancesEval g c limit,
      (⟨r.inst, rdfTypeT, .uriRef c⟩ : ETriple) ∈ g) ∧
  ((findInstancesEval g c limit).length < limit →
      ∀ s, (∃ r ∈ findInstancesEval g c limit, r.inst = s) ↔
            (⟨s, rdfTypeT, .uriRef c⟩ : ETriple) ∈ g) ∧
  ((∀ s, (valuesOf g s rdfsLabelT).length ≤ 1) →
      ((findInstancesEval g c limit).map InstRow.inst).Nodup) ∧
  containsSub (find_instances_query c limit) ("?instance a <" ++ c ++ "> .") ∧
  containsSub (find_instances_query c limit) ("ORDER BY ?instance") ∧
  containsSub (find_instances_query c limit) (("LIMIT ") ++ toString limit)

/-- Well-formedness of an engine term for Turtle rendering: a present
language tag is non-empty, as pyoxigraph guarantees for its literals. -/
def noEmptyLangB : OgTerm → Bool
  | .literal _ lang _ => !(lang == some "")
  | _ => true

/-- Concrete construct result exercising the plain-string, language-tagged,
typed-literal, IRI and blank-node rendering branches, with characters that
need escaping. -/
def c4Triples : List OgTriple :=
  [⟨.namedNode ("http://e/s"), .namedNode ("http://e/p"),
     .literal ("a\"b\\c") none (some xsdString)⟩,
   ⟨.blankNode ("b0"), .namedNode ("http://e/p"),
     .literal ("hi") (some ("en")) (some rdfLangString)⟩,
   ⟨.namedNode ("http://e/s"), .namedNode ("http://e/p"),
     .literal ("5") none (some ("http://www.w3.org/2001/XMLSchema#integer"))⟩]

/-- Concrete rdflib oracle used by witnesses: empty query results, empty
serializations and parses, zero count coercions. -/
def rdflibEnvEx : RdflibEnv :=
  { query := fun _ _ => .ok ⟨some [], [], none⟩,
    serializeTurtle := fun _ => "",
    parseFile := fun _ _ => .ok [],
    intOf := fun _ => 0 }

/-- Concrete connected LocalBackend state used by witnesses. -/
def localStateEx : LocalState :=
  { store_path := none, store_format := ("turtle"),
    graph := some ⟨[], baseNamespaces⟩, repository_id := ("local") }

/-- Statement of claim C1: each of the five operations fails with the
NotConnected RuntimeError on a state whose graph handle is absent, which
is the state before connect and the state every close produces; close is
idempotent and always yields exactly that state; and on a connected state
no operation fails with NotConnected — each query operation succeeds
whenever the engine call succeeds and propagates the engine error
otherwise, namespaces always succeed, and statistics fail only by an
engine error. -/
def C1Concl (env : RdflibEnv) (st : LocalState) (g : RGraph) (q : String)
    (rid : Option String) : Prop :=
  (LocalBackend.sparql_select env { st with graph := none } q rid
      = .error (.runtimeError notConnectedMsg)) ∧
  (LocalBackend.sparql_construct env { st with graph := none } q rid
      = .error (.runtimeError notConnectedMsg)) ∧
  (LocalBackend.sparql_ask env { st with graph := none } q rid
      = .error (.runtimeError notConnectedMsg)) ∧
  (LocalBackend.get_namespaces { st with graph := none } rid
      = .error (.runtimeError notConnectedMsg)) ∧
  (LocalBackend.get_statistics env { st with graph := none } rid
      = .error (.runtimeError notConnectedMsg)) ∧
  (LocalBackend.close (LocalBackend.close st) = LocalBackend.close st) ∧
  (LocalBackend.close st = { st with graph := none }) ∧
  (∀ r, env.query g.triples q = .ok r →
      ∃ res, LocalBackend.sparql_select env { st with graph := some g } q rid
               = .ok res) ∧
  (∀ m, env.query g.triples q = .error m →
      LocalBackend.sparql_select env { st with graph := some g } q rid
        = .error (.engineError m)) ∧
  (∀ r, env.query g.triples q = .ok r →
      ∃ res, LocalBackend.sparql_construct env { st with graph := some g } q rid
               = .ok res) ∧
  (∀ m, env.query g.triples q = .error m →
      LocalBackend.sparql_construct env { st with graph := some g } q rid
        = .error (.engineError m)) ∧
  (∀ r, env.query g.triples q = .ok r →
      ∃ res, LocalBackend.sparql_ask env { st with graph := some g } q rid
               = .ok res) ∧
  (∀ m, env.query g.triples q = .error m →
      LocalBackend.sparql_ask env { st with graph := some g } q rid
        = .error (.engineError m)) ∧
  (∃ res, LocalBackend.get_namespaces { st with graph := some g } rid = .ok res) ∧
  (∀ e, LocalBackend.get_statistics env { st with graph := some g } rid = .error e →
      ∃ m, e = .engineError m) ∧
  (∀ r1 r2, env.query g.triples localClassesQuery = .ok r1 →
      env.query g.triples localPropsQuery = .ok r2 →
      ∃ res, LocalBackend.get_statistics env { st with graph := some g } rid
               = .ok res)

/-- Statement of claim C9: select_repository on the in-process adapter
leaves the state untouched, fails with the Unknown repository ValueError
exactly on ids other than the synthetic id local, and succeeds on local. -/
def C9Concl (st : LocalState) (id : String) : Prop :=
  ((LocalBackend.select_repository st id).1 = st) ∧
  (id ≠ ("local") →
    (LocalBackend.select_repository st id).2
      = .error (.valueError (("Unknown repository: ") ++ id))) ∧
  (id = ("local") → (LocalBackend.select_repository st id).2 = .ok ())

/-- Statement of claim C10: every read operation of the in-process adapter
ignores the repository_id argument — any two values give identical
results — and none of them can fail with the ValueError used for
repository errors: every failure is the NotConnected RuntimeError or a
propagated engine error. -/
def C10Concl (env : RdflibEnv) (st : LocalState) (q : String)
    (r1 r2 : Option String) : Prop :=
  (LocalBackend.sparql_select env st q r1 = LocalBackend.sparql_select env st q r2) ∧
  (LocalBackend.sparql_construct env st q r1
      = LocalBackend.sparql_construct env st q r2) ∧
  (LocalBackend.sparql_ask env st q r1 = LocalBackend.sparql_ask env st q r2) ∧
  (LocalBackend.get_namespaces st r1 = LocalBackend.get_namespaces st r2) ∧
  (LocalBackend.get_statistics env st r1 = LocalBackend.get_statistics env st r2) ∧
  (∀ e, LocalBackend.sparql_select env st q r1 = .error e →
      (∃ m, e = .runtimeError m) ∨ (∃ m, e = .engineError m)) ∧
  (∀ e, LocalBackend.sparql_construct env st q r1 = .error e →
      (∃ m, e = .runtimeError m) ∨ (∃ m, e = .engineError m)) ∧
  (∀ e, LocalBackend.sparql_ask env st q r1 = .error e →
      (∃ m, e = .runtimeError m) ∨ (∃ m, e = .engineError m)) ∧
  (∀ e, LocalBackend.get_namespaces st r1 = .error e →
      (∃ m, e = .runtimeError m) ∨ (∃ m, e = .engineError m)) ∧
  (∀ e, LocalBackend.get_statistics env st r1 = .error e →
      (∃ m, e = .runtimeError m) ∨ (∃ m, e = .engineError m))

/-- Concrete connected RemoteBackend state with a cached handle for the
current repository. -/
def remoteStateEx : RemoteState :=
  { server_url := ("http://server"), default_repository := some ("r"),
    current_repository := some ("r"), client := true, repo := some ("r") }

/-- Remote oracle whose every query succeeds with a plain boolean, the
shape sparql_select and sparql_construct do not expect. -/
def remoteEnvBoolEx : RemoteEnv :=
  { get_repository := fun rid => .ok rid,
    query := fun _ _ => .ok (.boolRes true),
    size := fun _ => .ok 0 }

/-- Remote oracle whose every query succeeds with zero solution rows. -/
def remoteEnvEmptyEx : RemoteEnv :=
  { get_repository := fun rid => .ok rid,
    query := fun _ _ => .ok (.solutions [("s")] []),
    size := fun _ => .ok 0 }

/-- Remote oracle answering every count query with the literal 5 and the
size primitive with 42. -/
def remoteStatsEnvEx : RemoteEnv :=
  { get_repository := fun rid => .ok rid,
    query := fun _ _ => .ok (.solutions [("count")] [[some (.literal ("5") none none)]]),
    size := fun _ => .ok 42 }

/-- Claim C7 as stated, for the select operation: an empty bindings list is
returned successfully only when the engine semantics genuinely produced
zero matching rows. -/
def c7StatedSelect : Prop :=
  ∀ (env : RemoteEnv) (st : RemoteState) (q : String) (rid : Option String)
    (h : RepoHandle) (res : QueryResult),
    RemoteBackend.get_repository_m env st rid = .ok h →
    RemoteBackend.sparql_select env st q rid = .ok res →
    res.bindings = some [] →
    ∃ vars, env.query h q = .ok (.solutions vars [])

/-- Statement of claim C7 with the amendment: repository-resolution and
engine errors propagate unchanged, carrying their kind and message, to the
immediate caller of every remote query operation, and a SELECT that the
engine answers with zero rows is a successful empty result; however a
successful engine result of an unexpected shape is not an error — it is
silently converted to the default result of the operation (empty bindings,
empty triples string, or a false boolean). -/
def C7Concl (env : RemoteEnv) (st : RemoteState) (q : String)
    (rid : Option String) : Prop :=
  (∀ e, RemoteBackend.get_repository_m env st rid = .error e →
      RemoteBackend.sparql_select env st q rid = .error e ∧
      RemoteBackend.sparql_construct env st q rid = .error e ∧
      RemoteBackend.sparql_ask env st q rid = .error e) ∧
  (∀ h e, RemoteBackend.get_repository_m env st rid = .ok h →
      env.query h q = .error e →
      RemoteBackend.sparql_select env st q rid = .error e ∧
      RemoteBackend.sparql_construct env st q rid = .error e ∧
      RemoteBackend.sparql_ask env st q rid = .error e) ∧
  (∀ h vars, RemoteBackend.get_repository_m env st rid = .ok h →
      env.query h q = .ok (.solutions vars []) →
      RemoteBackend.sparql_select env st q rid
        = .ok { type := ("select"), bindings := some [], qvars := some vars }) ∧
  (∀ h b, RemoteBackend.get_repository_m env st rid = .ok h →
      env.query h q = .ok (.boolRes b) →
      RemoteBackend.sparql_select env st q rid
        = .ok { type := ("select"), bindings := some [], qvars := some [] }) ∧
  (∀ h vars rows, RemoteBackend.get_repository_m env st rid = .ok h →
      env.query h q = .ok (.solutions vars rows) →
      RemoteBackend.sparql_ask env st q rid
        = .ok { type := ("ask"), boolean := some false }) ∧
  (∀ h b, RemoteBackend.get_repository_m env st rid = .ok h →
      env.query h q = .ok (.boolRes b) →
      RemoteBackend.sparql_ask env st q rid
        = .ok { type := ("ask"), boolean := some b }) ∧
  (∀ h ts, RemoteBackend.get_repository_m env st rid = .ok h →
      env.query h q = .ok (.triplesRes ts) →
      RemoteBackend.sparql_construct env st q rid
        = .ok { type := ("construct"),
                triples := some (RemoteBackend.serialize_construct ts) }) ∧
  (∀ h b, RemoteBackend.get_repository_m env st rid = .ok h →
      env.query h q = .ok (.boolRes b) →
      RemoteBackend.sparql_construct env st q rid
        = .ok { type := ("construct"), triples := some ("") })

/-- Statement of claim C8: the remote statistics call returns the size
primitive result as the statement total and the four extracted aggregate
counts, each COUNT DISTINCT query text carrying the aggregate; when the
engine delivers non-negative figures every returned field is
non-negative. -/
def C8Concl (env : RemoteEnv) (st : RemoteState) (rid : Option String)
    (n c1 c2 c3 c4 : Int) : Prop :=
  (RemoteBackend.get_statistics env st rid
      = .ok { total_statements := n, total_classes := c1, total_properties := c2,
              total_subjects := c3, total_objects := c4 }) ∧
  (0 ≤ n → 0 ≤ c1 → 0 ≤ c2 → 0 ≤ c3 → 0 ≤ c4 →
    ∀ s, RemoteBackend.get_statistics env st rid = .ok s →
      0 ≤ s.total_statements ∧ 0 ≤ s.total_classes ∧ 0 ≤ s.total_properties ∧
      0 ≤ s.total_subjects ∧ 0 ≤ s.total_objects) ∧
  containsSub remoteClassesQuery ("COUNT(DISTINCT ?class)") ∧
  containsSub remotePropsQuery ("COUNT(DISTINCT ?prop)") ∧
  containsSub remoteSubjectsQuery ("COUNT(DISTINCT ?s)") ∧
  containsSub remoteObjectsQuery ("COUNT(DISTINCT ?o)")

/- ------------------------------------------------------------------ -/
/- Helper lemmas                                                       -/
/- ------------------------------------------------------------------ -/

/-- Sequential replace equals the single character-wise escape pass: the
first pass introduces only fresh backslashes, which the quote pass leaves
alone. -/
theorem replaceChar_escape (l : List Char) :
    replaceChar ('"') [('\\'), ('"')]
      (replaceChar ('\\') [('\\'), ('\\')] l) =
    l.flatMap fun c =>
      if c = ('\\') then [('\\'), ('\\')]
      else if c = ('"') then [('\\'), ('"')] else [c] := by
  induction l with
  | nil => rfl
  | cons c cs ih =>
      by_cases hb : c = ('\\')
      · subst hb
        simp [replaceChar, ih]
      · by_cases hq : c = ('"')
        · subst hq
          simp [replaceChar, ih]
        · simp [replaceChar, hb, hq, ih]

/-- The code escape and the spec escape agree on every string. -/
theorem pyEscape_eq_specEscape (s : String) : pyEscape s = specEscape s := by
  unfold pyEscape specEscape
  rw [replaceChar_escape]

/-- The adapter Turtle rendering of one term agrees with the spec wording
whenever a present language tag is non-empty. -/
theorem format_term_eq_spec (t : OgTerm) (h : noEmptyLangB t = true) :
    RemoteBackend.format_term t = specRenderTerm t := by
  cases t with
  | namedNode v => rfl
  | blankNode v => rfl
  | objOther r => rfl
  | literal v lang dt =>
      cases lang with
      | some l =>
          have hl : ¬ (l = "") := by
            simpa [noEmptyLangB] using h
          simp [RemoteBackend.format_term, specRenderTerm, pyTruthy,
                pyEscape_eq_specEscape, String.isEmpty_iff, hl]
      | none =>
          cases dt with
          | none =>
              simp [RemoteBackend.format_term, specRenderTerm, pyTruthy,
                    pyEscape_eq_specEscape]
          | some d =>
              by_cases hd : d = xsdString <;>
                simp [RemoteBackend.format_term, specRenderTerm, pyTruthy,
                      pyEscape_eq_specEscape, hd]

/-- Keys of a local row binding are the declared variables that the row
actually binds, in declaration order. -/
theorem row_binding_keys (vars : List String) (cols : List (String × RTerm)) :
    (LocalBackend.row_binding (some vars) cols).map Prod.fst
      = vars.filter fun v => (cols.lookup v).isSome := by
  induction vars with
  | nil => rfl
  | cons v vs ih =>
      simp only [LocalBackend.row_binding, Option.getD_some, List.filterMap_cons] at *
      cases h : cols.lookup v <;>
        simp [h, List.filter_cons, ih]

/-- Keys of a remote solution binding are the declared variables whose
position in the solution is bound, in declaration order. -/
theorem solution_binding_keys (varNames : List String)
    (sol : List (Option OgTerm)) :
    (RemoteBackend.solution_binding varNames sol).map Prod.fst
      = (varNames.zip sol).filterMap fun p =>
          if p.2.isSome then some p.1 else none := by
  unfold RemoteBackend.solution_binding
  induction varNames.zip sol with
  | nil => rfl
  | cons p ps ih =>
      cases h : p.2 <;> simp [List.filterMap_cons, h, ih]

/-- Under distinct declared names, a zip entry is determined by its name. -/
theorem zip_fst_inj {names : List String} {sol : List (Option OgTerm)}
    (h : names.Nodup) :
    ∀ p ∈ names.zip sol, ∀ q ∈ names.zip sol, p.1 = q.1 → p = q := by
  induction names generalizing sol with
  | nil => intro p hp; simp at hp
  | cons n ns ih =>
      cases sol with
      | nil => intro p hp; simp at hp
      | cons s ss =>
          intro p hp q hq hpq
          simp only [List.zip_cons_cons, List.mem_cons] at hp hq
          rcases hp with rfl | hp <;> rcases hq with rfl | hq
          · rfl
          · exfalso
            have hq1 : q.1 ∈ ns := (List.of_mem_zip hq).1
            rw [← hpq] at hq1
            exact (List.nodup_cons.1 h).1 hq1
          · exfalso
            have hp1 : p.1 ∈ ns := (List.of_mem_zip hp).1
            rw [hpq] at hp1
            exact (List.nodup_cons.1 h).1 hp1
          · exact ih (List.nodup_cons.1 h).2 p hp q hq hpq

/-- Bind of a successful Except computation is plain application. -/
theorem exceptBind_ok {ε α β : Type} (a : α) (f : α → Except ε β) :
    (Except.ok a >>= f) = f a := rfl

/-- Bind of a failed Except computation propagates the error. -/
theorem exceptBind_error {ε α β : Type} (e : ε) (f : α → Except ε β) :
    ((Except.error e : Except ε α) >>= f) = .error e := rfl

/-- Containment extends to the left. -/
theorem containsSub_append_left (a : String) {s sub : String}
    (h : containsSub s sub) : containsSub (a ++ s) sub := by
  obtain ⟨x, y, rfl⟩ := h
  exact ⟨a ++ x, y, by simp [String.append_assoc]⟩

/-- Containment extends to the right. -/
theorem containsSub_append_right {s sub : String} (b : String)
    (h : containsSub s sub) : containsSub (s ++ b) sub := by
  obtain ⟨x, y, rfl⟩ := h
  exact ⟨x, y ++ b, by simp [String.append_assoc]⟩

/-- termLe is transitive. -/
theorem termLe_trans {a b c : RTerm} (hab : termLe a b = true)
    (hbc : termLe b c = true) : termLe a c = true := by
  simp only [termLe, decide_eq_true_eq] at *
  exact le_trans hab hbc

/-- termLe is total. -/
theorem termLe_total (a b : RTerm) : (termLe a b || termLe b a) = true := by
  simp only [termLe, Bool.or_eq_true, decide_eq_true_eq]
  exact le_total _ _

/-- The sort, dedup, take pipeline yields a duplicate-free list. -/
theorem pipeline_nodup {α : Type} [DecidableEq α] (r : α → α → Prop)
    [DecidableRel r] (l : List α) (n : Nat) :
    (((List.insertionSort r l).dedup).take n).Nodup :=
  (List.take_sublist _ _).nodup (List.nodup_dedup _)

/-- The sort, dedup, take pipeline yields a list sorted by the relation. -/
theorem pipeline_pairwise {α : Type} [DecidableEq α] (r : α → α → Prop)
    [DecidableRel r] [IsTotal α r] [IsTrans α r] (l : List α) (n : Nat) :
    List.Pairwise r (((List.insertionSort r l).dedup).take n) :=
  List.Pairwise.sublist ((List.take_sublist _ _).trans (List.dedup_sublist _))
    (List.sorted_insertionSort r l)

/-- The sort, dedup, take pipeline only returns elements of the input. -/
theorem pipeline_subset {α : Type} [DecidableEq α] (r : α → α → Prop)
    [DecidableRel r] (l : List α) (n : Nat) :
    (((List.insertionSort r l).dedup).take n) ⊆ l := by
  intro x hx
  have h1 := (List.take_sublist _ _).subset hx
  have h2 := (List.dedup_sublist _).subset h1
  exact (List.perm_insertionSort r l).subset h2

/-- When the pipeline output is strictly shorter than the cap, nothing was
cut and every input element is returned. -/
theorem pipeline_mem_of_short {α : Type} [DecidableEq α] (r : α → α → Prop)
    [DecidableRel r] {l : List α} {n : Nat} (x : α)
    (hlen : (((List.insertionSort r l).dedup).take n).length < n) (hx : x ∈ l) :
    x ∈ ((List.insertionSort r l).dedup).take n := by
  have hfull : ((List.insertionSort r l).dedup).length ≤ n := by
    have hl := List.length_take n ((List.insertionSort r l).dedup)
    rw [hl] at hlen
    omega
  rw [List.take_of_length_le hfull]
  rw [List.mem_dedup]
  exact ((List.perm_insertionSort r l).mem_iff).2 hx

/-- Membership characterization of the raw search_classes rows. -/
theorem mem_searchClassesRaw {g : List ETriple} {r : ClassRow} :
    r ∈ searchClassesRaw g ↔
      r.cls ∈ classCandidates g ∧
      r.lbl ∈ optVals (valuesOf g r.cls rdfsLabelT) ∧
      r.cmt ∈ optVals (valuesOf g r.cls rdfsCommentT) := by
  unfold searchClassesRaw
  simp only [List.mem_flatMap, List.mem_map]
  constructor
  · rintro ⟨c, hc, lb, hlb, cm, hcm, rfl⟩
    exact ⟨hc, hlb, hcm⟩
  · rintro ⟨hc, hlb, hcm⟩
    exact ⟨r.cls, hc, r.lbl, hlb, r.cmt, hcm, rfl⟩

/-- The OPTIONAL row list is never empty. -/
theorem optVals_ne_nil (l : List RTerm) : optVals l ≠ [] := by
  unfold optVals
  cases l <;> simp

/-- With at most one match, the OPTIONAL value is determined by the match
list head. -/
theorem mem_optVals_of_le_one {l : List RTerm} {x : Option RTerm}
    (hx : x ∈ optVals l) (hlen : l.length ≤ 1) : x = l.head? := by
  unfold optVals at hx
  cases l with
  | nil => simpa using hx
  | cons a t =>
      cases t with
      | nil => simpa using hx
      | cons b t2 => simp at hlen

/-- The filtered rows are a subset of the raw rows. -/
theorem searchClassesFiltered_subset (rx : String → String → Bool)
    (g : List ETriple) (pattern : Option String) :
    searchClassesFiltered rx g pattern ⊆ searchClassesRaw g := by
  unfold searchClassesFiltered
  by_cases hp : pyTruthy pattern = true
  · rw [if_pos hp]
    intro x hx
    exact (List.mem_filter.1 hx).1
  · rw [if_neg hp]
    exact fun x hx => hx

/-- A string contains its own suffix. -/
theorem containsSub_suffix (a s : String) : containsSub (a ++ s) s :=
  ⟨a, "", by simp⟩

/-- Membership characterization of the raw find_instances rows. -/
theorem mem_findInstancesRaw {g : List ETriple} {c : String} {r : InstRow} :
    r ∈ findInstancesRaw g c ↔
      r.inst ∈ instanceCandidates g c ∧
      r.lbl ∈ optVals (valuesOf g r.inst rdfsLabelT) := by
  unfold findInstancesRaw
  simp only [List.mem_flatMap, List.mem_map]
  constructor
  · rintro ⟨s, hs, lb, hlb, rfl⟩
    exact ⟨hs, hlb⟩
  · rintro ⟨hs, hlb⟩
    exact ⟨r.inst, hs, r.lbl, hlb, rfl⟩

/-- A term is an instance candidate exactly when the typing triple is in
the store. -/
theorem mem_instanceCandidates {g : List ETriple} {c : String} {s : RTerm} :
    s ∈ instanceCandidates g c ↔ (⟨s, rdfTypeT, .uriRef c⟩ : ETriple) ∈ g := by
  unfold instanceCandidates
  simp only [List.mem_filterMap]
  constructor
  · rintro ⟨t, ht, hcond⟩
    by_cases h : t.ep = rdfTypeT ∧ t.eo = .uriRef c
    · rw [if_pos h] at hcond
      obtain ⟨h1, h2⟩ := h
      rcases t with ⟨te, tp, tob⟩
      simp only [Option.some.injEq] at hcond
      simp only at h1 h2
      subst h1
      subst h2
      subst hcond
      exact ht
    · rw [if_neg h] at hcond
      exact Option.noConfusion hcond
  · intro ht
    exact ⟨⟨s, rdfTypeT, .uriRef c⟩, ht, by simp⟩

/-- Claim C2, counterexample: the claim says at most one of language and
datatype is ever copied, but the remote converter applied to the
engine-native pyoxigraph literal for the French string chat, whose language
is fr and whose datatype is rdf:langString, copies both annotations into
the resulting record. -/
theorem c2_counterexample :
    ¬ ((RemoteBackend.term_to_dict ogLangLit).xmlLang = none ∨
       (RemoteBackend.term_to_dict ogLangLit).datatype = none) := by
  decide

/-- Claim C2, amended: both converters tag terms as IRI, Literal, or
BlankNode according to the engine tagging; each copies the language tag iff
it is truthy and the datatype iff it is truthy (for rdflib, a non-empty
URIRef) or present (for pyoxigraph, a NamedNode); the two copies are
independent, so at most one annotation appears exactly when the native
literal carries at most one, which rdflib guarantees; a datatype is never
invented from the value shape, since the output datatype is either absent
or the native datatype itself. -/
theorem c2_term_conversion (v : String) (lang dt : Option String) :
    C2Concl v lang dt := by
  unfold C2Concl
  cases hl : pyTruthy lang <;> cases hd : pyTruthy dt <;>
    cases dt <;>
      simp_all [LocalBackend.term_to_dict, RemoteBackend.term_to_dict, pyTruthy]

/-- Witness for c2_term_conversion at a concrete rdflib-style literal with
a language tag and no datatype. -/
theorem c2_witness : C2Concl ("x") (some ("en")) none :=
  c2_term_conversion ("x") (some ("en")) none

/-- Claim C3: both adapters produce each binding by walking the declared
projected-variable list, so binding keys follow the projection order; a
projected variable unbound in a row is absent from that binding rather
than mapped to a null marker, and every present value converts an actual
engine term. -/
theorem c3_row_normalization (vars : List String) (cols : List (String × RTerm))
    (varNames : List String) (sol : List (Option OgTerm)) :
    C3Concl vars cols varNames sol := by
  refine ⟨row_binding_keys vars cols, ?_, ?_, rfl,
          solution_binding_keys varNames sol, ?_, ?_⟩
  · intro v hnone d hd
    simp only [LocalBackend.row_binding, Option.getD_some, List.mem_filterMap] at hd
    obtain ⟨v2, _hv2, heq⟩ := hd
    cases h2 : cols.lookup v2 <;> rw [h2] at heq
    · exact Option.noConfusion heq
    · simp only [Option.map_some', Option.some.injEq, Prod.mk.injEq] at heq
      obtain ⟨h3, _⟩ := heq
      subst h3
      rw [hnone] at h2
      exact Option.noConfusion h2
  · intro v d hd
    simp only [LocalBackend.row_binding, Option.getD_some, List.mem_filterMap] at hd
    obtain ⟨v2, _hv2, heq⟩ := hd
    cases h2 : cols.lookup v2 <;> rw [h2] at heq
    · exact Option.noConfusion heq
    · rename_i t
      simp only [Option.map_some', Option.some.injEq, Prod.mk.injEq] at heq
      obtain ⟨h3, h4⟩ := heq
      subst h3
      exact ⟨t, h2, h4.symm⟩
  · intro v d hd
    simp only [RemoteBackend.solution_binding, List.mem_filterMap] at hd
    obtain ⟨p, hp, heq⟩ := hd
    cases h2 : p.2 <;> rw [h2] at heq
    · exact Option.noConfusion heq
    · rename_i t
      simp only [Option.map_some', Option.some.injEq, Prod.mk.injEq] at heq
      obtain ⟨h3, h4⟩ := heq
      refine ⟨t, ?_, h4.symm⟩
      have hpe : p = (v, some t) := by
        cases p
        simp_all
      rw [← hpe]
      exact hp
  · intro hnodup v hvnone d hd
    simp only [RemoteBackend.solution_binding, List.mem_filterMap] at hd
    obtain ⟨p, hp, heq⟩ := hd
    cases h2 : p.2 <;> rw [h2] at heq
    · exact Option.noConfusion heq
    · rename_i t
      simp only [Option.map_some', Option.some.injEq, Prod.mk.injEq] at heq
      obtain ⟨h3, _⟩ := heq
      have hpe : p = (v, some t) := by
        cases p
        simp_all
      have hcol := zip_fst_inj hnodup (v, none) hvnone p hp (by rw [hpe])
      rw [hpe] at hcol
      exact Option.noConfusion (congrArg Prod.snd hcol)

/-- Witness for c3_row_normalization at a concrete projection and row. -/
theorem c3_witness :
    C3Concl [("a"), ("b")] [(("a"), RTerm.uriRef ("http://e/1"))]
      [("x")] [some (OgTerm.namedNode ("http://e/2"))] :=
  c3_row_normalization [("a"), ("b")] [(("a"), RTerm.uriRef ("http://e/1"))]
    [("x")] [some (OgTerm.namedNode ("http://e/2"))]

/-- Claim C4: the remote Turtle serialization renders each triple as
subject predicate object dot on its own line, IRIs in angle brackets,
literal values double-quoted with backslash and double quote escaped,
language-tagged literals suffixed with the language, datatype-tagged
literals suffixed with the angle-bracketed datatype IRI except xsd:string,
blank nodes as underscore colon label, never compacting IRIs — stated as
equality with a rendering written directly from the spec wording, under
the engine guarantee that language tags are non-empty. -/
theorem c4_construct_turtle (ts : List OgTriple)
    (h : ∀ t ∈ ts, noEmptyLangB t.subject = true ∧ noEmptyLangB t.predicate = true ∧
                   noEmptyLangB t.object = true) :
    RemoteBackend.serialize_construct ts = specRenderTriples ts := by
  unfold RemoteBackend.serialize_construct specRenderTriples
  congr 1
  apply List.map_congr_left
  intro t ht
  obtain ⟨h1, h2, h3⟩ := h t ht
  rw [format_term_eq_spec _ h1, format_term_eq_spec _ h2, format_term_eq_spec _ h3]

/-- Witness for c4_construct_turtle at the concrete triple list covering
every rendering branch. -/
theorem c4_witness :
    (∀ t ∈ c4Triples, noEmptyLangB t.subject = true ∧ noEmptyLangB t.predicate = true ∧
                      noEmptyLangB t.object = true) ∧
    RemoteBackend.serialize_construct c4Triples = specRenderTriples c4Triples :=
  ⟨by decide, c4_construct_turtle c4Triples (by decide)⟩

/-- Claim C5, counterexample: on a store with an explicit owl:Class
declaration whose class carries two rdfs:label values, the evaluation of
the issued search_classes query returns the class IRI in two distinct
bindings, so the no-duplicate-IRIs half of the claim is false. -/
theorem c5_counterexample :
    ¬ (((searchClassesEval rxTrue c5Graph none 100).map ClassRow.cls).Nodup) := by
  decide

set_option maxRecDepth 40000 in
/-- Claim C5, amended: search_classes deduplicates whole rows, not class
IRIs: the result has no duplicate rows, is ordered by the class key, is
capped at limit, draws every class from the union of the three discovery
patterns, and is free of duplicate class IRIs whenever every candidate
class carries at most one rdfs:label and at most one rdfs:comment; the
issued query text unions the three patterns, annotates optionally,
filters by case-insensitive regex on the class IRI exactly when a pattern
is given, orders by the class variable, and carries the LIMIT clause. -/
theorem c5_search_classes (rx : String → String → Bool) (g : List ETriple)
    (pattern : Option String) (limit : Nat) : C5Concl rx g pattern limit := by
  unfold C5Concl
  refine ⟨pipeline_nodup _ _ _, pipeline_pairwise _ _ _, List.length_take_le _ _,
          ?_, ?_, ?_, ?_, ?_, ?_, ?_, ?_, ?_⟩
  · intro r hr
    have hraw : r ∈ searchClassesRaw g :=
      searchClassesFiltered_subset rx g pattern (pipeline_subset _ _ _ hr)
    exact (mem_searchClassesRaw.1 hraw).1
  · intro hone
    apply List.Nodup.map_on ?_ (pipeline_nodup _ _ _)
    intro x hx y hy hxy
    obtain ⟨hxc, hxl, hxm⟩ := mem_searchClassesRaw.1
      (searchClassesFiltered_subset rx g pattern (pipeline_subset _ _ _ hx))
    obtain ⟨hyc, hyl, hym⟩ := mem_searchClassesRaw.1
      (searchClassesFiltered_subset rx g pattern (pipeline_subset _ _ _ hy))
    have hxl2 := mem_optVals_of_le_one hxl (hone x.cls).1
    have hxm2 := mem_optVals_of_le_one hxm (hone x.cls).2
    have hyl2 := mem_optVals_of_le_one hyl (hone y.cls).1
    have hym2 := mem_optVals_of_le_one hym (hone y.cls).2
    rcases x with ⟨xc, xl, xm⟩
    rcases y with ⟨yc, yl, ym⟩
    simp only at hxy hxl2 hxm2 hyl2 hym2
    subst hxy
    simp_all
  · unfold search_classes_query
    apply containsSub_append_right
    apply containsSub_append_right
    apply containsSub_append_right
    apply containsSub_append_right
    exact ⟨"\n        SELECT DISTINCT ?class ?label ?comment\n        WHERE \x7b\n            \x7b ?class a owl:Class \x7d\n            ",
           "\n            \x7b ?class a rdfs:Class \x7d\n            UNION\n            \x7b ?s a ?class \x7d\n            OPTIONAL \x7b ?class rdfs:label ?label \x7d\n            OPTIONAL \x7b ?class rdfs:comment ?comment \x7d\n            ",
           by decide⟩
  · unfold search_classes_query
    apply containsSub_append_right
    apply containsSub_append_right
    apply containsSub_append_right
    apply containsSub_append_right
    exact ⟨"\n        SELECT DISTINCT ?class ?label ?comment\n        WHERE \x7b\n            \x7b ?class a owl:Class \x7d\n            UNION\n            \x7b ?class a rdfs:Class \x7d\n            UNION\n            \x7b ?s a ?class \x7d\n            ",
           "\n            OPTIONAL \x7b ?class rdfs:comment ?comment \x7d\n            ",
           by decide⟩
  · unfold search_classes_query
    apply containsSub_append_right
    apply containsSub_append_right
    apply containsSub_append_right
    apply containsSub_append_right
    exact ⟨"\n        SELECT DISTINCT ?class ?label ?comment\n        WHERE \x7b\n            \x7b ?class a owl:Class \x7d\n            UNION\n            \x7b ?class a rdfs:Class \x7d\n            UNION\n            \x7b ?s a ?class \x7d\n            OPTIONAL \x7b ?class rdfs:label ?label \x7d\n            ",
           "\n            ",
           by decide⟩
  · unfold search_classes_query
    apply containsSub_append_right
    apply containsSub_append_right
    apply containsSub_append_left
    exact ⟨"\n        \x7d\n        ", "\n        LIMIT ", by decide⟩
  · unfold search_classes_query
    apply containsSub_append_right
    have h2 : ("\n        \x7d\n        ORDER BY ?class\n        LIMIT ")
        = ("\n        \x7d\n        ORDER BY ?class\n        ") ++ ("LIMIT ") := by
      decide
    rw [h2]
    refine ⟨("\n        SELECT DISTINCT ?class ?label ?comment\n        WHERE \x7b\n            \x7b ?class a owl:Class \x7d\n            UNION\n            \x7b ?class a rdfs:Class \x7d\n            UNION\n            \x7b ?s a ?class \x7d\n            OPTIONAL \x7b ?class rdfs:label ?label \x7d\n            OPTIONAL \x7b ?class rdfs:comment ?comment \x7d\n            "
             ++ search_classes_filter pattern
             ++ "\n        \x7d\n        ORDER BY ?class\n        "), "", ?_⟩
    simp only [String.append_assoc, String.append_empty]
  · intro hp
    unfold search_classes_query search_classes_filter
    rw [if_pos hp]
    apply containsSub_append_right
    apply containsSub_append_right
    apply containsSub_append_right
    exact containsSub_suffix _ _
  · intro hp
    simp [search_classes_filter, hp]

/-- Witness for c5_search_classes at a concrete store with an explicit
declaration, an implicit type usage and single annotations, where the
returned class column is concretely duplicate-free. -/
theorem c5_witness :
    C5Concl rxTrue c5GoodGraph none 100 ∧
    ((searchClassesEval rxTrue c5GoodGraph none 100).map ClassRow.cls).Nodup ∧
    (searchClassesEval rxTrue c5GoodGraph none 100).length = 2 :=
  ⟨c5_search_classes rxTrue c5GoodGraph none 100, by decide, by decide⟩

/-- Claim C6, counterexample: on a store where the single typed subject
carries two rdfs:label values, the evaluation of the issued find_instances
query returns that subject in two bindings, so the no-repeated-subject
half of the claim is false. -/
theorem c6_counterexample :
    ¬ (((findInstancesEval c6Graph c6ClassIRI 100).map InstRow.inst).Nodup) := by
  decide

set_option maxRecDepth 40000 in
/-- Claim C6, amended: find_instances returns one row per subject and
label combination, ordered by instance IRI and capped at limit; the rows
are duplicate-free as pairs, every returned instance is rdf:type-d to the
class, the instance set is exactly the typed-subject set when the result
is not truncated, and the instance column repeats a subject only when it
has several rdfs:label values. -/
theorem c6_find_instances (g : List ETriple) (c : String) (limit : Nat) :
    C6Concl g c limit := by
  unfold C6Concl
  refine ⟨pipeline_pairwise _ _ _, pipeline_nodup _ _ _, List.length_take_le _ _,
          ?_, ?_, ?_, ?_, ?_, ?_⟩
  · intro r hr
    have hraw : r ∈ findInstancesRaw g c := pipeline_subset _ _ _ hr
    exact mem_instanceCandidates.1 (mem_findInstancesRaw.1 hraw).1
  · intro hlen s
    constructor
    · rintro ⟨r, hr, rfl⟩
      exact mem_instanceCandidates.1
        (mem_findInstancesRaw.1 (pipeline_subset _ _ _ hr)).1
    · intro ht
      have hcand : s ∈ instanceCandidates g c := mem_instanceCandidates.2 ht
      obtain ⟨x, xs, hxl⟩ :=
        List.exists_cons_of_ne_nil (optVals_ne_nil (valuesOf g s rdfsLabelT))
      have hrow : (⟨s, x⟩ : InstRow) ∈ findInstancesRaw g c := by
        apply mem_findInstancesRaw.2
        constructor
        · exact hcand
        · rw [hxl]
          exact List.mem_cons_self x xs
      exact ⟨⟨s, x⟩, pipeline_mem_of_short _ _ hlen hrow, rfl⟩
  · intro hone
    apply List.Nodup.map_on ?_ (pipeline_nodup _ _ _)
    intro x hx y hy hxy
    obtain ⟨hxc, hxl⟩ := mem_findInstancesRaw.1 (pipeline_subset _ _ _ hx)
    obtain ⟨hyc, hyl⟩ := mem_findInstancesRaw.1 (pipeline_subset _ _ _ hy)
    have hxl2 := mem_optVals_of_le_one hxl (hone x.inst)
    have hyl2 := mem_optVals_of_le_one hyl (hone y.inst)
    rcases x with ⟨xi, xl⟩
    rcases y with ⟨yi, yl⟩
    simp only at hxy hxl2 hyl2
    subst hxy
    simp_all
  · unfold find_instances_query
    apply containsSub_append_right
    apply containsSub_append_right
    have hA : ("\n        SELECT DISTINCT ?instance ?label\n        WHERE \x7b\n            ?instance a <")
        = ("\n        SELECT DISTINCT ?instance ?label\n        WHERE \x7b\n            ")
          ++ ("?instance a <") := by
      decide
    have hB : ("> .\n            OPTIONAL \x7b ?instance rdfs:label ?label \x7d\n        \x7d\n        ORDER BY ?instance\n        LIMIT ")
        = ("> .") ++ ("\n            OPTIONAL \x7b ?instance rdfs:label ?label \x7d\n        \x7d\n        ORDER BY ?instance\n        LIMIT ") := by
      decide
    rw [hA, hB]
    refine ⟨("\n        SELECT DISTINCT ?instance ?label\n        WHERE \x7b\n            "),
            ("\n            OPTIONAL \x7b ?instance rdfs:label ?label \x7d\n        \x7d\n        ORDER BY ?instance\n        LIMIT "), ?_⟩
    simp only [String.append_assoc]
  · unfold find_instances_query
    apply containsSub_append_right
    apply containsSub_append_right
    apply containsSub_append_left
    exact ⟨("> .\n            OPTIONAL \x7b ?instance rdfs:label ?label \x7d\n        \x7d\n        "),
           ("\n        LIMIT "), by decide⟩
  · unfold find_instances_query
    apply containsSub_append_right
    have hB2 : ("> .\n            OPTIONAL \x7b ?instance rdfs:label ?label \x7d\n        \x7d\n        ORDER BY ?instance\n        LIMIT ")
        = ("> .\n            OPTIONAL \x7b ?instance rdfs:label ?label \x7d\n        \x7d\n        ORDER BY ?instance\n        ") ++ ("LIMIT ") := by
      decide
    rw [hB2]
    refine ⟨("\n        SELECT DISTINCT ?instance ?label\n        WHERE \x7b\n            ?instance a <"
             ++ c
             ++ "> .\n            OPTIONAL \x7b ?instance rdfs:label ?label \x7d\n        \x7d\n        ORDER BY ?instance\n        "), "", ?_⟩
    simp only [String.append_assoc, String.append_empty]

/-- Witness for c6_find_instances at a concrete store where the returned
instance column is exactly the two typed subjects in IRI order. -/
theorem c6_witness :
    C6Concl c6GoodGraph c6ClassIRI 100 ∧
    (findInstancesEval c6GoodGraph c6ClassIRI 100).map InstRow.inst
      = [.uriRef ("http://ex.org/a"), .uriRef ("http://ex.org/b")] :=
  ⟨c6_find_instances c6GoodGraph c6ClassIRI 100, by decide⟩

/-- Unfolding of LocalBackend.sparql_select as one match tree. -/
theorem sparql_select_eq (env : RdflibEnv) (st : LocalState) (q : String)
    (rid : Option String) :
    LocalBackend.sparql_select env st q rid
      = match st.graph with
        | none => .error (.runtimeError notConnectedMsg)
        | some g =>
            match env.query g.triples q with
            | .error m => .error (.engineError m)
            | .ok r =>
                .ok { type := ("select"),
                      bindings := some (LocalBackend.bindings_to_dicts r.vars r.items),
                      qvars := some (r.vars.getD []) } := by
  unfold LocalBackend.sparql_select LocalBackend.ensure_connected
  cases st.graph <;> rfl

/-- Unfolding of LocalBackend.sparql_construct as one match tree. -/
theorem sparql_construct_eq (env : RdflibEnv) (st : LocalState) (q : String)
    (rid : Option String) :
    LocalBackend.sparql_construct env st q rid
      = match st.graph with
        | none => .error (.runtimeError notConnectedMsg)
        | some g =>
            match env.query g.triples q with
            | .error m => .error (.engineError m)
            | .ok r =>
                .ok { type := ("construct"),
                      triples := some (env.serializeTurtle
                        ((r.items.filterMap fun it =>
                          match it with
                          | .tripleItem a b c => some (⟨a, b, c⟩ : ETriple)
                          | _ => none).dedup)) } := by
  unfold LocalBackend.sparql_construct LocalBackend.ensure_connected
  cases st.graph <;> rfl

/-- Unfolding of LocalBackend.sparql_ask as one match tree. -/
theorem sparql_ask_eq (env : RdflibEnv) (st : LocalState) (q : String)
    (rid : Option String) :
    LocalBackend.sparql_ask env st q rid
      = match st.graph with
        | none => .error (.runtimeError notConnectedMsg)
        | some g =>
            match env.query g.triples q with
            | .error m => .error (.engineError m)
            | .ok r => .ok { type := ("ask"), boolean := some (r.askAnswer.getD false) } := by
  unfold LocalBackend.sparql_ask LocalBackend.ensure_connected
  cases st.graph <;> rfl

/-- Unfolding of LocalBackend.get_namespaces as one match tree. -/
theorem get_namespaces_eq (st : LocalState) (rid : Option String) :
    LocalBackend.get_namespaces st rid
      = match st.graph with
        | none => .error (.runtimeError notConnectedMsg)
        | some g => .ok (g.nsBindings.map fun p => ⟨p.1, p.2⟩) := by
  unfold LocalBackend.get_namespaces LocalBackend.ensure_connected
  cases st.graph <;> rfl

/-- Unfolding of LocalBackend.get_statistics as one match tree. -/
theorem get_statistics_eq (env : RdflibEnv) (st : LocalState)
    (rid : Option String) :
    LocalBackend.get_statistics env st rid
      = match st.graph with
        | none => .error (.runtimeError notConnectedMsg)
        | some g =>
            match env.query g.triples localClassesQuery with
            | .error m => .error (.engineError m)
            | .ok cr =>
                match env.query g.triples localPropsQuery with
                | .error m => .error (.engineError m)
                | .ok pr =>
                    .ok { total_statements := (g.triples.length : Int),
                          total_classes := LocalBackend.extract_count env cr.items,
                          total_properties := LocalBackend.extract_count env pr.items,
                          total_subjects := ((g.triples.map ETriple.es).dedup.length : Int),
                          total_objects := ((g.triples.map ETriple.eo).dedup.length : Int) } := by
  unfold LocalBackend.get_statistics LocalBackend.ensure_connected
  cases st.graph <;> rfl

/-- Claim C1: the five LocalBackend operations fail with the NotConnected
RuntimeError before connect and after close, close may be called any
number of times with every call after the first a no-op, the closed state
is literally the never-connected state so the failure modes coincide, and
inside the connect window the operations reach the engine: they never
raise NotConnected, succeed when the engine calls succeed, and propagate
engine errors. -/
theorem c1_lifecycle (env : RdflibEnv) (st : LocalState) (g : RGraph)
    (q : String) (rid : Option String) : C1Concl env st g q rid := by
  unfold C1Concl
  refine ⟨rfl, rfl, rfl, rfl, rfl, rfl, rfl, ?_, ?_, ?_, ?_, ?_, ?_,
          ⟨_, rfl⟩, ?_, ?_⟩
  · intro r h
    rw [sparql_select_eq]
    simp only [h]
    exact ⟨_, rfl⟩
  · intro m h
    rw [sparql_select_eq]
    simp only [h]
  · intro r h
    rw [sparql_construct_eq]
    simp only [h]
    exact ⟨_, rfl⟩
  · intro m h
    rw [sparql_construct_eq]
    simp only [h]
  · intro r h
    rw [sparql_ask_eq]
    simp only [h]
    exact ⟨_, rfl⟩
  · intro m h
    rw [sparql_ask_eq]
    simp only [h]
  · intro e he
    rw [get_statistics_eq] at he
    simp only at he
    cases h1 : env.query g.triples localClassesQuery with
    | error m =>
        rw [h1] at he
        simp only [Except.error.injEq] at he
        exact ⟨m, he.symm⟩
    | ok r1 =>
        rw [h1] at he
        cases h2 : env.query g.triples localPropsQuery with
        | error m =>
            rw [h2] at he
            simp only [Except.error.injEq] at he
            exact ⟨m, he.symm⟩
        | ok r2 =>
            rw [h2] at he
            exact Except.noConfusion he
  · intro r1 r2 h1 h2
    rw [get_statistics_eq]
    simp only [h1, h2]
    exact ⟨_, rfl⟩

/-- Witness for c1_lifecycle at a concrete oracle, state, graph and query. -/
theorem c1_witness : C1Concl rdflibEnvEx localStateEx ⟨[], baseNamespaces⟩
    ("SELECT ?s WHERE") none :=
  c1_lifecycle rdflibEnvEx localStateEx ⟨[], baseNamespaces⟩
    ("SELECT ?s WHERE") none

/-- Claim C9: on a connected LocalBackend, select_repository fails with the
Unknown repository ValueError exactly when the id differs from the
synthetic id local, succeeds on local, and in both cases leaves the state
unchanged. -/
theorem c9_select_repository (st : LocalState) (id : String)
    (hconn : st.graph.isSome = true) (hid : st.repository_id = ("local")) :
    C9Concl st id := by
  unfold C9Concl
  refine ⟨rfl, ?_, ?_⟩
  · intro hne
    unfold LocalBackend.select_repository
    rw [hid]
    simp only [ne_eq, hne, not_false_eq_true, if_pos]
  · intro heq
    unfold LocalBackend.select_repository
    rw [hid, heq]
    simp

/-- Witness for c9_select_repository at the concrete connected state and a
rejected id together with the accepted id. -/
theorem c9_witness : C9Concl localStateEx ("nonexistent") ∧
    C9Concl localStateEx ("local") :=
  ⟨c9_select_repository localStateEx ("nonexistent") (by decide) rfl,
   c9_select_repository localStateEx ("local") (by decide) rfl⟩

/-- Claim C10: the result of every read operation of the in-process
adapter is independent of the repository_id argument, including None and
ids select_repository would reject, and no repository-related ValueError
can be raised by them. -/
theorem c10_repository_id_ignored (env : RdflibEnv) (st : LocalState)
    (q : String) (r1 r2 : Option String) : C10Concl env st q r1 r2 := by
  unfold C10Concl
  refine ⟨rfl, rfl, rfl, rfl, rfl, ?_, ?_, ?_, ?_, ?_⟩
  · intro e he
    rw [sparql_select_eq] at he
    cases hg : st.graph with
    | none =>
        rw [hg] at he
        exact Or.inl ⟨notConnectedMsg, (Except.error.inj he).symm⟩
    | some g =>
        rw [hg] at he
        simp only at he
        cases h1 : env.query g.triples q with
        | error m =>
            rw [h1] at he
            exact Or.inr ⟨m, (Except.error.inj he).symm⟩
        | ok r =>
            rw [h1] at he
            exact Except.noConfusion he
  · intro e he
    rw [sparql_construct_eq] at he
    cases hg : st.graph with
    | none =>
        rw [hg] at he
        exact Or.inl ⟨notConnectedMsg, (Except.error.inj he).symm⟩
    | some g =>
        rw [hg] at he
        simp only at he
        cases h1 : env.query g.triples q with
        | error m =>
            rw [h1] at he
            exact Or.inr ⟨m, (Except.error.inj he).symm⟩
        | ok r =>
            rw [h1] at he
            exact Except.noConfusion he
  · intro e he
    rw [sparql_ask_eq] at he
    cases hg : st.graph with
    | none =>
        rw [hg] at he
        exact Or.inl ⟨notConnectedMsg, (Except.error.inj he).symm⟩
    | some g =>
        rw [hg] at he
        simp only at he
        cases h1 : env.query g.triples q with
        | error m =>
            rw [h1] at he
            exact Or.inr ⟨m, (Except.error.inj he).symm⟩
        | ok r =>
            rw [h1] at he
            exact Except.noConfusion he
  · intro e he
    rw [get_namespaces_eq] at he
    cases hg : st.graph with
    | none =>
        rw [hg] at he
        exact Or.inl ⟨notConnectedMsg, (Except.error.inj he).symm⟩
    | some g =>
        rw [hg] at he
        simp only at he
        exact Except.noConfusion he
  · intro e he
    rw [get_statistics_eq] at he
    cases hg : st.graph with
    | none =>
        rw [hg] at he
        exact Or.inl ⟨notConnectedMsg, (Except.error.inj he).symm⟩
    | some g =>
        rw [hg] at he
        simp only at he
        cases h1 : env.query g.triples localClassesQuery with
        | error m =>
            rw [h1] at he
            exact Or.inr ⟨m, (Except.error.inj he).symm⟩
        | ok t1 =>
            rw [h1] at he
            cases h2 : env.query g.triples localPropsQuery with
            | error m =>
                rw [h2] at he
                exact Or.inr ⟨m, (Except.error.inj he).symm⟩
            | ok t2 =>
                rw [h2] at he
                exact Except.noConfusion he

/-- Witness for c10_repository_id_ignored at a concrete oracle, state,
query, a None repository id and a rejected repository id. -/
theorem c10_witness : C10Concl rdflibEnvEx localStateEx ("SELECT ?s WHERE")
    none (some ("nonexistent")) :=
  c10_repository_id_ignored rdflibEnvEx localStateEx ("SELECT ?s WHERE")
    none (some ("nonexistent"))

/-- Claim C7, counterexample: with an engine whose successful answer is a
plain boolean (the ASK shape), sparql_select returns a successful result
with an empty bindings list although the engine did not produce zero
matching rows — the failure-or-genuine-empty dichotomy of the claim is
false. -/
theorem c7_counterexample : ¬ c7StatedSelect := by
  intro hcl
  obtain ⟨vars, hv⟩ := hcl remoteEnvBoolEx remoteStateEx ("ASK WHERE") none ("r")
    { type := ("select"), bindings := some [], qvars := some [] } rfl rfl rfl
  exact OgResult.noConfusion (Except.ok.inj hv)

/-- Claim C7, amended: repository-resolution errors and engine errors
propagate unchanged through every remote query operation, and a zero-row
SELECT is a successful empty result; but a successful engine result of an
unexpected shape is silently converted to a default result — empty
bindings, empty triples string, or false — instead of an error. -/
theorem c7_remote_errors (env : RemoteEnv) (st : RemoteState) (q : String)
    (rid : Option String) : C7Concl env st q rid := by
  unfold C7Concl
  refine ⟨?_, ?_, ?_, ?_, ?_, ?_, ?_, ?_⟩
  · intro e he
    unfold RemoteBackend.sparql_select RemoteBackend.sparql_construct
      RemoteBackend.sparql_ask
    rw [he]
    exact ⟨rfl, rfl, rfl⟩
  · intro h e hrepo hq
    unfold RemoteBackend.sparql_select RemoteBackend.sparql_construct
      RemoteBackend.sparql_ask
    rw [hrepo]
    simp only [exceptBind_ok, hq, exceptBind_error]
    exact ⟨trivial, trivial, trivial⟩
  · intro h vars hrepo hq
    unfold RemoteBackend.sparql_select
    rw [hrepo]
    simp only [exceptBind_ok, hq,
               RemoteBackend.query_solutions_to_bindings, List.map_nil]
  · intro h b hrepo hq
    unfold RemoteBackend.sparql_select
    rw [hrepo]
    simp only [exceptBind_ok, hq]
  · intro h vars rows hrepo hq
    unfold RemoteBackend.sparql_ask
    rw [hrepo]
    simp only [exceptBind_ok, hq]
  · intro h b hrepo hq
    unfold RemoteBackend.sparql_ask
    rw [hrepo]
    simp only [exceptBind_ok, hq]
  · intro h ts hrepo hq
    unfold RemoteBackend.sparql_construct
    rw [hrepo]
    simp only [exceptBind_ok, hq]
  · intro h b hrepo hq
    unfold RemoteBackend.sparql_construct
    rw [hrepo]
    simp only [exceptBind_ok, hq]

/-- Witness for c7_remote_errors at a concrete boolean-answering oracle,
paired with a concrete zero-row SELECT that yields the documented
successful empty result. -/
theorem c7_witness :
    C7Concl remoteEnvBoolEx remoteStateEx ("ASK WHERE") none ∧
    RemoteBackend.sparql_select remoteEnvEmptyEx remoteStateEx ("SELECT ?s") none
      = .ok { type := ("select"), bindings := some [], qvars := some [("s")] } :=
  ⟨c7_remote_errors remoteEnvBoolEx remoteStateEx ("ASK WHERE") none, rfl⟩

set_option maxRecDepth 40000 in
/-- Claim C8: remote get_statistics takes the statement total from the
repository size primitive and the other four figures from one aggregate
COUNT DISTINCT query each, returns exactly the engine-delivered values
(hence non-negative ones whenever the engine counts are), and each issued
query text carries its COUNT DISTINCT aggregate. -/
theorem c8_remote_statistics (env : RemoteEnv) (st : RemoteState)
    (rid : Option String) (h : RepoHandle) (n : Int) (rc rp rs ro : OgResult)
    (c1 c2 c3 c4 : Int)
    (hrepo : RemoteBackend.get_repository_m env st rid = .ok h)
    (hsize : env.size h = .ok n)
    (hqc : env.query h remoteClassesQuery = .ok rc)
    (hc1 : RemoteBackend.extract_count rc = .ok c1)
    (hqp : env.query h remotePropsQuery = .ok rp)
    (hc2 : RemoteBackend.extract_count rp = .ok c2)
    (hqs : env.query h remoteSubjectsQuery = .ok rs)
    (hc3 : RemoteBackend.extract_count rs = .ok c3)
    (hqo : env.query h remoteObjectsQuery = .ok ro)
    (hc4 : RemoteBackend.extract_count ro = .ok c4) :
    C8Concl env st rid n c1 c2 c3 c4 := by
  unfold C8Concl
  have hmain : RemoteBackend.get_statistics env st rid
      = .ok { total_statements := n, total_classes := c1, total_properties := c2,
              total_subjects := c3, total_objects := c4 } := by
    unfold RemoteBackend.get_statistics
    rw [hrepo]
    simp only [exceptBind_ok, hsize, hqc, hc1, hqp, hc2, hqs, hc3, hqo, hc4]
  refine ⟨hmain, ?_, ?_, ?_, ?_, ?_⟩
  · intro hn h1 h2 h3 h4 s hs
    rw [hmain] at hs
    cases Except.ok.inj hs
    exact ⟨hn, h1, h2, h3, h4⟩
  · exact ⟨"\n        SELECT (",
           " AS ?count) WHERE \x7b\n            \x7b ?class a <http://www.w3.org/2002/07/owl#Class> \x7d\n            UNION \x7b ?class a <http://www.w3.org/2000/01/rdf-schema#Class> \x7d\n            UNION \x7b ?s a ?class \x7d\n        \x7d\n        ",
           by decide⟩
  · exact ⟨"\n        SELECT (",
           " AS ?count) WHERE \x7b\n            \x7b ?prop a <http://www.w3.org/1999/02/22-rdf-syntax-ns#Property> \x7d\n            UNION \x7b ?prop a <http://www.w3.org/2002/07/owl#ObjectProperty> \x7d\n            UNION \x7b ?prop a <http://www.w3.org/2002/07/owl#DatatypeProperty> \x7d\n            UNION \x7b ?s ?prop ?o \x7d\n        \x7d\n        ",
           by decide⟩
  · exact ⟨"SELECT (", " AS ?count) WHERE \x7b ?s ?p ?o \x7d", by decide⟩
  · exact ⟨"SELECT (", " AS ?count) WHERE \x7b ?s ?p ?o \x7d", by decide⟩

/-- Witness for c8_remote_statistics at a concrete oracle answering the
size primitive with 42 and every aggregate with the literal 5. -/
theorem c8_witness : C8Concl remoteStatsEnvEx remoteStateEx none 42 5 5 5 5 :=
  c8_remote_statistics remoteStatsEnvEx remoteStateEx none ("r") 42
    (.solutions [("count")] [[some (.literal ("5") none none)]])
    (.solutions [("count")] [[some (.literal ("5") none none)]])
    (.solutions [("count")] [[some (.literal ("5") none none)]])
    (.solutions [("count")] [[some (.literal ("5") none none)]])
    5 5 5 5 rfl rfl rfl rfl rfl rfl rfl rfl rfl rfl

end Rdf4jMcp
